import Mathlib

/-!
# Hardware pipeline manager

A shallow embedding of `source/HardwareRenderer.cpp` (class `dae::HardwareRenderer`).

* A nullable native pointer is an `Option Ptr`; `none` is `nullptr`.
* The graphics driver is an explicit world carried next to the members of the object:
  a counter of fresh object identities, the list of outstanding references (`live`) and the
  sequence of native calls and console writes issued so far (`trace`).
* Every fallible native call takes the `HRESULT` the driver answers with as an argument, so
  all outcomes of the driver are quantified over. A call that fails produces a null pointer.
* Dereferencing a null pointer and indexing a vector outside its bounds are undefined in the
  source; the embedding is total and stops in `Outcome.fault`, keeping the state reached.
* Single precision literals are kept as the decimal value written in the source; no
  arithmetic is performed on them anywhere in the embedded code.
-/

namespace dae

set_option linter.dupNamespace false

/-! ## Native vocabulary -/

/-- COM result code. -/
abbrev HRESULT := Int

/-- Result code `S_OK`. -/
def S_OK : HRESULT := 0

/-- The `FAILED(hr)` test: a result code is a failure exactly when it is negative. -/
def FAILED (hr : HRESULT) : Bool := decide (hr < 0)

/-- Identity of a native object; a nullable pointer is an `Option Ptr`. -/
abbrev Ptr := Nat

/-- A non-null `Mesh*`, identified by the object it points to. -/
abbrev MeshPtr := Nat

/-- The role under which a native object is held by the pipeline manager. -/
inductive Kind where
  | Device
  | DeviceContext
  | DxgiFactory
  | SwapChain
  | DepthStencilBuffer
  | DepthStencilView
  | RenderTargetBuffer
  | RenderTargetView
  | SamplerState
  | RasterizerState
  deriving DecidableEq, Repr

/-- Modelled from the spec: the declaration of `enum class SampleState`, whose header is not
among the sources. The spec gives the modes in the order Point, Linear, Anisotropic and the
source takes `Anisotropic` as the last enumerator. -/
inductive SampleState where
  | Point
  | Linear
  | Anisotropic
  deriving DecidableEq, Repr

/-- The conversion `static_cast<int>(sampleState)`. -/
def SampleState.toInt : SampleState → Nat
  | .Point => 0
  | .Linear => 1
  | .Anisotropic => 2

/-- The conversion `static_cast<SampleState>(n)`. -/
def SampleState.ofInt : Nat → SampleState
  | 0 => .Point
  | 1 => .Linear
  | _ => .Anisotropic

/-- Modelled from the spec: the declaration of `enum class CullMode` (from `DataTypes.h`, not
among the sources), with the three modes the spec and the source name. -/
inductive CullMode where
  | Back
  | Front
  | None
  deriving DecidableEq, Repr

/-- The filter constants of `D3D11_FILTER` used by the source. -/
inductive D3D11_FILTER where
  | MIN_MAG_MIP_POINT
  | MIN_MAG_MIP_LINEAR
  | ANISOTROPIC
  deriving DecidableEq, Repr

/-- The constants of `D3D11_CULL_MODE`. -/
inductive D3D11_CULL_MODE where
  | D3D11_CULL_NONE
  | D3D11_CULL_FRONT
  | D3D11_CULL_BACK
  deriving DecidableEq, Repr

/-- The pixel formats used by the source. -/
inductive DXGI_FORMAT where
  | R8G8B8A8_UNORM
  | D24_UNORM_S8_UINT
  deriving DecidableEq, Repr

/-- Description `D3D11_SAMPLER_DESC` as filled in by `LoadSampleState`. -/
structure D3D11_SAMPLER_DESC where
  Filter : D3D11_FILTER
  AddressUWrap : Bool
  AddressVWrap : Bool
  AddressWWrap : Bool
  ComparisonNever : Bool
  MipLODBias : Rat
  MinLOD : Rat
  MaxLOD : Rat
  MaxAnisotropy : Nat
  deriving DecidableEq

/-- Description `D3D11_RASTERIZER_DESC` as filled in by `SetRasterizerState`. -/
structure D3D11_RASTERIZER_DESC where
  FillSolid : Bool
  CullMode : D3D11_CULL_MODE
  FrontCounterClockwise : Bool
  DepthBias : Int
  SlopeScaledDepthBias : Rat
  DepthBiasClamp : Rat
  DepthClipEnable : Bool
  ScissorEnable : Bool
  MultisampleEnable : Bool
  AntialiasedLineEnable : Bool
  deriving DecidableEq

/-- Description `DXGI_SWAP_CHAIN_DESC` as filled in by `InitializeDirectX`. -/
structure DXGI_SWAP_CHAIN_DESC where
  Width : Int
  Height : Int
  RefreshNumerator : Nat
  RefreshDenominator : Nat
  Format : DXGI_FORMAT
  SampleCount : Nat
  SampleQuality : Nat
  BufferCount : Nat
  Windowed : Bool
  SwapEffectDiscard : Bool
  Flags : Nat
  OutputWindow : Nat
  deriving DecidableEq

/-- Description `D3D11_TEXTURE2D_DESC` of the depth-stencil buffer. -/
structure D3D11_TEXTURE2D_DESC where
  Width : Int
  Height : Int
  MipLevels : Nat
  ArraySize : Nat
  Format : DXGI_FORMAT
  SampleCount : Nat
  SampleQuality : Nat
  BindDepthStencil : Bool
  CPUAccessFlags : Nat
  MiscFlags : Nat
  deriving DecidableEq

/-- Description `D3D11_DEPTH_STENCIL_VIEW_DESC`. -/
structure D3D11_DEPTH_STENCIL_VIEW_DESC where
  Format : DXGI_FORMAT
  MipSlice : Nat
  deriving DecidableEq

/-- Structure `D3D11_VIEWPORT`. -/
structure D3D11_VIEWPORT where
  Width : Int
  Height : Int
  TopLeftX : Rat
  TopLeftY : Rat
  MinDepth : Rat
  MaxDepth : Rat
  deriving DecidableEq

/-- Colour triple `ColorRGB`. -/
structure ColorRGB where
  r : Rat
  g : Rat
  b : Rat
  deriving DecidableEq

/-- Constant `D3D11_FLOAT32_MAX`. -/
def D3D11_FLOAT32_MAX : Rat := 340282346600000000000000000000000000000

/-- One native call, mesh call or console write issued by the pipeline manager, with the
arguments that matter and, for a creation call, the result code and the pointer written. -/
inductive Effect where
  | D3D11CreateDevice (hr : HRESULT) (ppDevice ppContext : Option Ptr)
  | CreateDXGIFactory1 (hr : HRESULT) (ppFactory : Option Ptr)
  | CreateSwapChain (factory device : Ptr) (desc : DXGI_SWAP_CHAIN_DESC) (hr : HRESULT)
      (ppSwapChain : Option Ptr)
  | CreateTexture2D (device : Ptr) (desc : D3D11_TEXTURE2D_DESC) (hr : HRESULT)
      (ppTexture : Option Ptr)
  | CreateDepthStencilView (device : Ptr) (resource : Option Ptr)
      (desc : D3D11_DEPTH_STENCIL_VIEW_DESC) (hr : HRESULT) (ppView : Option Ptr)
  | GetBuffer (swapChain : Ptr) (buffer : Nat) (hr : HRESULT) (ppSurface : Option Ptr)
  | CreateRenderTargetView (device : Ptr) (resource : Option Ptr) (hr : HRESULT)
      (ppView : Option Ptr)
  | OMSetRenderTargets (context : Ptr) (rtv dsv : Option Ptr)
  | RSSetViewports (context : Ptr) (viewport : D3D11_VIEWPORT)
  | CreateSamplerState (device : Ptr) (desc : D3D11_SAMPLER_DESC) (hr : HRESULT)
      (ppState : Option Ptr)
  | CreateRasterizerState (device : Ptr) (desc : D3D11_RASTERIZER_DESC) (hr : HRESULT)
      (ppState : Option Ptr)
  | Release (kind : Kind) (p : Ptr)
  | ClearState (context : Ptr)
  | Flush (context : Ptr)
  | ClearRenderTargetView (context : Ptr) (rtv : Option Ptr) (color : ColorRGB)
  | ClearDepthStencilView (context : Ptr) (dsv : Option Ptr) (clearDepth clearStencil : Bool)
      (depth : Rat) (stencil : Nat)
  | Present (swapChain : Ptr) (syncInterval flags : Nat)
  | Mesh_HardwareRender (mesh : MeshPtr) (context : Option Ptr)
  | Mesh_SetSamplerState (mesh : MeshPtr) (state : Option Ptr)
  | Mesh_SetRasterizerState (mesh : MeshPtr) (state : Option Ptr)
  | cout (text : String)
  | wcout (text : String)
  deriving DecidableEq

/-! ## The object and the driver world -/

/-- Data members of `dae::HardwareRenderer`, as used by `HardwareRenderer.cpp`. -/
structure HardwareRenderer where
  m_pWindow : Nat
  m_Width : Int
  m_Height : Int
  m_IsInitialized : Bool
  m_SampleState : SampleState
  m_pDevice : Option Ptr
  m_pDeviceContext : Option Ptr
  m_pSwapChain : Option Ptr
  m_pDepthStencilBuffer : Option Ptr
  m_pDepthStencilView : Option Ptr
  m_pRenderTargetBuffer : Option Ptr
  m_pRenderTargetView : Option Ptr
  m_pSampleState : Option Ptr
  m_pRasterizerState : Option Ptr
  deriving DecidableEq

/-- The object together with the driver world it acts on. -/
structure State extends HardwareRenderer where
  nextObject : Nat
  live : List (Kind × Ptr)
  trace : List Effect
  deriving DecidableEq

/-- Undefined behaviour of the source, made an explicit result. -/
inductive Fault where
  | nullDereference
  | indexOutOfRange
  deriving DecidableEq, Repr

/-- Result of running a member function: completion, or a fault with the state reached. -/
inductive Outcome where
  | done (s : State)
  | fault (f : Fault) (s : State)
  deriving DecidableEq

/-- The state an outcome ends in. -/
def Outcome.state : Outcome → State
  | .done s => s
  | .fault _ s => s

/-- Record one effect at the end of the trace. -/
def emit (s : State) (e : Effect) : State :=
  { s with trace := s.trace ++ [e] }

/-- The driver hands out a new object with one outstanding reference. -/
def acquire (s : State) (k : Kind) : State :=
  { s with nextObject := s.nextObject + 1, live := (k, s.nextObject) :: s.live }

/-- The call `p->Release()`: one outstanding reference of the object is given back. -/
def release (s : State) (k : Kind) (p : Ptr) : State :=
  { s with live := s.live.erase (k, p), trace := s.trace ++ [Effect.Release k p] }

/-- The guarded release `if (p) p->Release();`. -/
def releaseIfPresent (s : State) (k : Kind) (p : Option Ptr) : State :=
  match p with
  | some q => release s k q
  | none => s

/-- Number of outstanding references of a given kind. -/
def liveCount (s : State) (k : Kind) : Nat :=
  (s.live.filter (fun h => decide (h.1 = k))).length

/-- Modelled from the spec: the default member initialisers of the class declaration in
`HardwareRenderer.h`, which is not among the sources. Every pointer member starts null (the
destructor tests each of them), the readiness flag starts cleared, and the filter mode
starts at Point, the mode the constructor loads. The driver world starts empty. -/
def State.initial (pWindow : Nat) : State :=
  { m_pWindow := pWindow
    m_Width := 0
    m_Height := 0
    m_IsInitialized := false
    m_SampleState := .Point
    m_pDevice := none
    m_pDeviceContext := none
    m_pSwapChain := none
    m_pDepthStencilBuffer := none
    m_pDepthStencilView := none
    m_pRenderTargetBuffer := none
    m_pRenderTargetView := none
    m_pSampleState := none
    m_pRasterizerState := none
    nextObject := 0
    live := []
    trace := [] }

/-! ## Initialisation -/

/-- The fallible native steps of `InitializeDirectX`, in source order. -/
inductive InitStep where
  | DeviceAndContext
  | DxgiFactory
  | SwapChain
  | DepthStencilTexture
  | DepthStencilView
  | BackBuffer
  | RenderTargetView
  deriving DecidableEq, Repr

/-- Position of a step in the chain. -/
def InitStep.index : InitStep → Nat
  | .DeviceAndContext => 0
  | .DxgiFactory => 1
  | .SwapChain => 2
  | .DepthStencilTexture => 3
  | .DepthStencilView => 4
  | .BackBuffer => 5
  | .RenderTargetView => 6

/-- The step whose creation call an effect is, if it is one. -/
def Effect.initStep : Effect → Option InitStep
  | .D3D11CreateDevice _ _ _ => some .DeviceAndContext
  | .CreateDXGIFactory1 _ _ => some .DxgiFactory
  | .CreateSwapChain _ _ _ _ _ => some .SwapChain
  | .CreateTexture2D _ _ _ _ => some .DepthStencilTexture
  | .CreateDepthStencilView _ _ _ _ _ => some .DepthStencilView
  | .GetBuffer _ _ _ _ => some .BackBuffer
  | .CreateRenderTargetView _ _ _ _ => some .RenderTargetView
  | _ => none

/-- The members a step writes its result to (the factory is a local of the function). -/
def InitStep.handles (s : State) : InitStep → List (Option Ptr)
  | .DeviceAndContext => [s.m_pDevice, s.m_pDeviceContext]
  | .DxgiFactory => []
  | .SwapChain => [s.m_pSwapChain]
  | .DepthStencilTexture => [s.m_pDepthStencilBuffer]
  | .DepthStencilView => [s.m_pDepthStencilView]
  | .BackBuffer => [s.m_pRenderTargetBuffer]
  | .RenderTargetView => [s.m_pRenderTargetView]

/-- Member function `HardwareRenderer::InitializeDirectX`. The argument `o` gives the result
code the driver answers each creation step with. -/
def HardwareRenderer.InitializeDirectX (s : State) (o : InitStep → HRESULT) : HRESULT × State :=
  -- Create Device and DeviceContext
  let result := o .DeviceAndContext
  if FAILED result then (result, emit s (.D3D11CreateDevice result none none)) else
  let dev := s.nextObject
  let ctx := s.nextObject + 1
  let s := acquire (acquire s .Device) .DeviceContext
  let s := { s with m_pDevice := some dev, m_pDeviceContext := some ctx }
  let s := emit s (.D3D11CreateDevice result (some dev) (some ctx))
  -- Create DXGI Factory
  let result := o .DxgiFactory
  if FAILED result then (result, emit s (.CreateDXGIFactory1 result none)) else
  let pDxgiFactory := s.nextObject
  let s := acquire s .DxgiFactory
  let s := emit s (.CreateDXGIFactory1 result (some pDxgiFactory))
  -- Create the swapchain description
  let swapChainDesc : DXGI_SWAP_CHAIN_DESC :=
    { Width := s.m_Width
      Height := s.m_Height
      RefreshNumerator := 1
      RefreshDenominator := 60
      Format := .R8G8B8A8_UNORM
      SampleCount := 1
      SampleQuality := 0
      BufferCount := 1
      Windowed := true
      SwapEffectDiscard := true
      Flags := 0
      OutputWindow := s.m_pWindow }
  -- Create swapchain
  let result := o .SwapChain
  let pSwapChain := s.nextObject
  let s :=
    if FAILED result then
      emit { s with m_pSwapChain := none }
        (.CreateSwapChain pDxgiFactory dev swapChainDesc result none)
    else
      emit { acquire s .SwapChain with m_pSwapChain := some pSwapChain }
        (.CreateSwapChain pDxgiFactory dev swapChainDesc result (some pSwapChain))
  let s := release s .DxgiFactory pDxgiFactory
  if FAILED result then (result, s) else
  -- Create DepthStencil (DS) and DepthStencilView (DSV)
  let depthStencilDesc : D3D11_TEXTURE2D_DESC :=
    { Width := s.m_Width
      Height := s.m_Height
      MipLevels := 1
      ArraySize := 1
      Format := .D24_UNORM_S8_UINT
      SampleCount := 1
      SampleQuality := 0
      BindDepthStencil := true
      CPUAccessFlags := 0
      MiscFlags := 0 }
  let depthStencilViewDesc : D3D11_DEPTH_STENCIL_VIEW_DESC :=
    { Format := depthStencilDesc.Format, MipSlice := 0 }
  -- Create the stencil buffer
  let result := o .DepthStencilTexture
  if FAILED result then (result, emit s (.CreateTexture2D dev depthStencilDesc result none)) else
  let pBuffer := s.nextObject
  let s := { acquire s .DepthStencilBuffer with m_pDepthStencilBuffer := some pBuffer }
  let s := emit s (.CreateTexture2D dev depthStencilDesc result (some pBuffer))
  -- Create the stencil view
  let result := o .DepthStencilView
  if FAILED result then
    (result, emit s (.CreateDepthStencilView dev s.m_pDepthStencilBuffer depthStencilViewDesc
      result none)) else
  let pView := s.nextObject
  let s := { acquire s .DepthStencilView with m_pDepthStencilView := some pView }
  let s := emit s (.CreateDepthStencilView dev s.m_pDepthStencilBuffer depthStencilViewDesc
    result (some pView))
  -- Create RenderTarget (RT) and RenderTargetView (RTV)
  let result := o .BackBuffer
  if FAILED result then (result, emit s (.GetBuffer pSwapChain 0 result none)) else
  let pTarget := s.nextObject
  let s := { acquire s .RenderTargetBuffer with m_pRenderTargetBuffer := some pTarget }
  let s := emit s (.GetBuffer pSwapChain 0 result (some pTarget))
  let result := o .RenderTargetView
  if FAILED result then
    (result, emit s (.CreateRenderTargetView dev s.m_pRenderTargetBuffer result none)) else
  let pTargetView := s.nextObject
  let s := { acquire s .RenderTargetView with m_pRenderTargetView := some pTargetView }
  let s := emit s (.CreateRenderTargetView dev s.m_pRenderTargetBuffer result (some pTargetView))
  -- Bind RTV and DSV to Output Merger Stage
  let s := emit s (.OMSetRenderTargets ctx s.m_pRenderTargetView s.m_pDepthStencilView)
  -- Set viewport
  let viewport : D3D11_VIEWPORT :=
    { Width := s.m_Width
      Height := s.m_Height
      TopLeftX := 0
      TopLeftY := 0
      MinDepth := 0
      MaxDepth := 1 }
  let s := emit s (.RSSetViewports ctx viewport)
  (S_OK, s)

/-- Member function `HardwareRenderer::LoadSampleState`; `hr` is the result code of the
sampler state creation. -/
def HardwareRenderer.LoadSampleState (s : State) (filter : D3D11_FILTER)
    (pMeshes : List MeshPtr) (hr : HRESULT) : Outcome :=
  -- Create the SampleState description
  let sampleDesc : D3D11_SAMPLER_DESC :=
    { Filter := filter
      AddressUWrap := true
      AddressVWrap := true
      AddressWWrap := true
      ComparisonNever := true
      MipLODBias := 0
      MinLOD := -D3D11_FLOAT32_MAX
      MaxLOD := D3D11_FLOAT32_MAX
      MaxAnisotropy := 1 }
  -- Release the current sample state if one exists
  let s := releaseIfPresent s .SamplerState s.m_pSampleState
  -- Create a new sample state
  match s.m_pDevice with
  | none => .fault .nullDereference s
  | some dev =>
    let s :=
      if FAILED hr then
        emit (emit { s with m_pSampleState := none } (.CreateSamplerState dev sampleDesc hr none))
          (.wcout "m_pSampleState failed to load\n")
      else
        emit { acquire s .SamplerState with m_pSampleState := some s.nextObject }
          (.CreateSamplerState dev sampleDesc hr (some s.nextObject))
    -- Update the sample state in all the meshes
    .done (pMeshes.foldl (fun st pMesh => emit st (.Mesh_SetSamplerState pMesh s.m_pSampleState)) s)

/-- The constructor `HardwareRenderer::HardwareRenderer(SDL_Window*)`. The window size
reported by `SDL_GetWindowSize` is `(width, height)`; `o` and `hrSampler` are the answers of
the driver to the creation calls. -/
def HardwareRenderer.HardwareRenderer (pWindow : Nat) (width height : Int)
    (o : InitStep → HRESULT) (hrSampler : HRESULT) : Outcome :=
  let s := State.initial pWindow
  let s := { s with m_Width := width, m_Height := height }
  -- Initialize DirectX pipeline
  let r := HardwareRenderer.InitializeDirectX s o
  let s := r.2
  let s :=
    if r.1 = S_OK then { s with m_IsInitialized := true }
    else emit s (.cout "DirectX initialization failed!\n")
  -- Load the initial sample state
  HardwareRenderer.LoadSampleState s .MIN_MAG_MIP_POINT [] hrSampler

/-- The destructor `HardwareRenderer::~HardwareRenderer`. -/
def HardwareRenderer.destructor (s : State) : State :=
  let s := releaseIfPresent s .SamplerState s.m_pSampleState
  let s := releaseIfPresent s .RenderTargetView s.m_pRenderTargetView
  let s := releaseIfPresent s .RenderTargetBuffer s.m_pRenderTargetBuffer
  let s := releaseIfPresent s .DepthStencilView s.m_pDepthStencilView
  let s := releaseIfPresent s .DepthStencilBuffer s.m_pDepthStencilBuffer
  let s := releaseIfPresent s .SwapChain s.m_pSwapChain
  let s :=
    match s.m_pDeviceContext with
    | some ctx => release (emit (emit s (.ClearState ctx)) (.Flush ctx)) .DeviceContext ctx
    | none => s
  releaseIfPresent s .Device s.m_pDevice

/-- Member function `HardwareRenderer::Render`. -/
def HardwareRenderer.Render (s : State) (pMeshes : List MeshPtr) (useUniformBackground : Bool) :
    Outcome :=
  if !s.m_IsInitialized then .done s else
  -- Clear RTV and DSV
  let clearColor : ColorRGB :=
    if useUniformBackground then { r := 0.1, g := 0.1, b := 0.1 }
    else { r := 0.39, g := 0.59, b := 0.93 }
  match s.m_pDeviceContext with
  | none => .fault .nullDereference s
  | some ctx =>
    let s := emit s (.ClearRenderTargetView ctx s.m_pRenderTargetView clearColor)
    let s := emit s (.ClearDepthStencilView ctx s.m_pDepthStencilView true true 1 0)
    -- Set pipeline + Invoke drawcalls (= render)
    let s := pMeshes.foldl (fun st pMesh => emit st (.Mesh_HardwareRender pMesh (some ctx))) s
    -- Present backbuffer (swap)
    match s.m_pSwapChain with
    | none => .fault .nullDereference s
    | some swapChain => .done (emit s (.Present swapChain 0 0))

/-- Member function `HardwareRenderer::ToggleRenderSampleState`; `hr` is the result code of
the sampler state creation. -/
def HardwareRenderer.ToggleRenderSampleState (s : State) (pMeshes : List MeshPtr)
    (hr : HRESULT) : Outcome :=
  -- Go to the next sample state
  let s := { s with m_SampleState :=
    SampleState.ofInt ((s.m_SampleState.toInt + 1) % (SampleState.Anisotropic.toInt + 1)) }
  -- Get the right D3D11 Filter
  let s := emit s (.cout "\x1b[32m")
  let s := emit s (.cout "**(HARDWARE) Sampler Filter = ")
  match s.m_SampleState with
  | .Point =>
    HardwareRenderer.LoadSampleState (emit s (.cout "POINT\n")) .MIN_MAG_MIP_POINT pMeshes hr
  | .Linear =>
    HardwareRenderer.LoadSampleState (emit s (.cout "LINEAR\n")) .MIN_MAG_MIP_LINEAR pMeshes hr
  | .Anisotropic =>
    HardwareRenderer.LoadSampleState (emit s (.cout "ANISOTROPIC\n")) .ANISOTROPIC pMeshes hr

/-- Member function `HardwareRenderer::SetRasterizerState`; `hr` is the result code of the
rasterizer state creation. -/
def HardwareRenderer.SetRasterizerState (s : State) (cullMode : CullMode)
    (pMeshes : List MeshPtr) (hr : HRESULT) : Outcome :=
  -- Create the RasterizerState description
  let rasterizerDesc : D3D11_RASTERIZER_DESC :=
    { FillSolid := true
      FrontCounterClockwise := false
      DepthBias := 0
      SlopeScaledDepthBias := 0
      DepthBiasClamp := 0
      DepthClipEnable := true
      ScissorEnable := false
      MultisampleEnable := false
      AntialiasedLineEnable := false
      -- Set the right cull mode
      CullMode :=
        match cullMode with
        | .Back => .D3D11_CULL_BACK
        | .Front => .D3D11_CULL_FRONT
        | .None => .D3D11_CULL_NONE }
  -- Release the current rasterizer state if one exists
  let s := releaseIfPresent s .RasterizerState s.m_pRasterizerState
  -- Create a new rasterizer state
  match s.m_pDevice with
  | none => .fault .nullDereference s
  | some dev =>
    let s :=
      if FAILED hr then
        emit (emit { s with m_pRasterizerState := none }
          (.CreateRasterizerState dev rasterizerDesc hr none))
          (.wcout "m_pRasterizerState failed to load\n")
      else
        emit { acquire s .RasterizerState with m_pRasterizerState := some s.nextObject }
          (.CreateRasterizerState dev rasterizerDesc hr (some s.nextObject))
    -- Apply the rasterizer state
    match pMeshes[0]? with
    | none => .fault .indexOutOfRange s
    | some pMesh => .done (emit s (.Mesh_SetRasterizerState pMesh s.m_pRasterizerState))

/-! ## Sequences of calls -/

/-- A call of one of the two state-changing member functions, with its arguments and the
result code the driver answers the creation call with. -/
inductive Call where
  | ToggleRenderSampleState (pMeshes : List MeshPtr) (hr : HRESULT)
  | SetRasterizerState (cullMode : CullMode) (pMeshes : List MeshPtr) (hr : HRESULT)
  deriving DecidableEq

/-- Perform one call. -/
def Call.exec (s : State) : Call → Outcome
  | .ToggleRenderSampleState pMeshes hr => HardwareRenderer.ToggleRenderSampleState s pMeshes hr
  | .SetRasterizerState cullMode pMeshes hr =>
    HardwareRenderer.SetRasterizerState s cullMode pMeshes hr

/-- Perform calls one after the other; a fault ends the run. -/
def runCalls (s : State) : List Call → Outcome
  | [] => .done s
  | c :: cs =>
    match c.exec s with
    | .done s1 => runCalls s1 cs
    | .fault f s1 => .fault f s1

/-- Continue a run that may already have ended in a fault. -/
def Outcome.thenCalls (r : Outcome) (cs : List Call) : Outcome :=
  match r with
  | .done s => runCalls s cs
  | .fault f s => .fault f s

/-- The effects issued between an earlier state and a later one. -/
def emitted (before after : State) : List Effect :=
  after.trace.drop before.trace.length

/-- Modelled from the spec: how one effect changes the rasterizer state held by a mesh. The
class `Mesh` is not among the sources; per the spec a mesh consumes the state handed to it, so
a `SetRasterizerState` call on the mesh replaces what it holds and nothing else does. -/
def meshRasterizerStep (mesh : MeshPtr) (held : Option Ptr) : Effect → Option Ptr
  | .Mesh_SetRasterizerState m p => if m = mesh then p else held
  | _ => held

/-- Modelled from the spec: the rasterizer state held by a mesh after a sequence of effects,
null before any `SetRasterizerState` call on it. -/
def meshRasterizerState (trace : List Effect) (mesh : MeshPtr) : Option Ptr :=
  trace.foldl (meshRasterizerStep mesh) none

/-! ## Definitions used in the statements and proofs -/

/-- The pointer a creation call answering `hr` writes, when the next fresh object is `n`. -/
def created (hr : HRESULT) (n : Nat) : Option Ptr :=
  if FAILED hr then none else some n

/-- The sampler description built by `LoadSampleState` for a filter. -/
def sampleDescOf (filter : D3D11_FILTER) : D3D11_SAMPLER_DESC :=
  { Filter := filter
    AddressUWrap := true
    AddressVWrap := true
    AddressWWrap := true
    ComparisonNever := true
    MipLODBias := 0
    MinLOD := -D3D11_FLOAT32_MAX
    MaxLOD := D3D11_FLOAT32_MAX
    MaxAnisotropy := 1 }

/-- The effects of the guarded release of a pointer. -/
def releaseEffects (k : Kind) (p : Option Ptr) : List Effect :=
  match p with
  | some q => [Effect.Release k q]
  | none => []

/-- The outstanding references after the guarded release of a pointer. -/
def liveAfterRelease (live : List (Kind × Ptr)) (k : Kind) (p : Option Ptr) : List (Kind × Ptr) :=
  match p with
  | some q => live.erase (k, q)
  | none => live

/-- Reference table, following the spec: the text naming a filter mode in the status line. -/
def SampleState.displayName : SampleState → String
  | .Point => "POINT"
  | .Linear => "LINEAR"
  | .Anisotropic => "ANISOTROPIC"

/-- Reference table, following the spec: the filter kind of a filter mode. -/
def SampleState.filterKind : SampleState → D3D11_FILTER
  | .Point => .MIN_MAG_MIP_POINT
  | .Linear => .MIN_MAG_MIP_LINEAR
  | .Anisotropic => .ANISOTROPIC

/-- The mode `(current + 1) mod 3`. -/
def SampleState.succMod (m : SampleState) : SampleState :=
  SampleState.ofInt ((m.toInt + 1) % 3)

/-- The text of a write to `std::cout`. -/
def Effect.coutText : Effect → Option String
  | .cout t => some t
  | _ => none

/-- The filter kind requested by a sampler state creation call. -/
def Effect.samplerRequest : Effect → Option D3D11_FILTER
  | .CreateSamplerState _ desc _ _ => some desc.Filter
  | _ => none

/-- Reference table, following the spec: the native cull mode of a cull mode argument. -/
def CullMode.toD3D : CullMode → D3D11_CULL_MODE
  | .Back => .D3D11_CULL_BACK
  | .Front => .D3D11_CULL_FRONT
  | .None => .D3D11_CULL_NONE

/-- The rasterizer description built by `SetRasterizerState` for a cull mode. -/
def rasterizerDescOf (cullMode : CullMode) : D3D11_RASTERIZER_DESC :=
  { FillSolid := true
    CullMode := cullMode.toD3D
    FrontCounterClockwise := false
    DepthBias := 0
    SlopeScaledDepthBias := 0
    DepthBiasClamp := 0
    DepthClipEnable := true
    ScissorEnable := false
    MultisampleEnable := false
    AntialiasedLineEnable := false }

/-- The state `SetRasterizerState` reaches just before it reads `pMeshes[0]`. -/
def afterRasterizerCreate (s : State) (dev : Ptr) (cullMode : CullMode) (hr : HRESULT) : State :=
  { toHardwareRenderer :=
      { s.toHardwareRenderer with m_pRasterizerState := created hr s.nextObject }
    nextObject := if FAILED hr then s.nextObject else s.nextObject + 1
    live :=
      if FAILED hr then liveAfterRelease s.live .RasterizerState s.m_pRasterizerState
      else (Kind.RasterizerState, s.nextObject) ::
        liveAfterRelease s.live .RasterizerState s.m_pRasterizerState
    trace := s.trace ++ (releaseEffects .RasterizerState s.m_pRasterizerState ++
      [Effect.CreateRasterizerState dev (rasterizerDescOf cullMode) hr
        (created hr s.nextObject)] ++
      (if FAILED hr then [Effect.wcout "m_pRasterizerState failed to load\n"] else [])) }

/-- The cull mode requested by a rasterizer state creation call and the pointer it wrote. -/
def Effect.rasterizerCreate : Effect → Option (D3D11_CULL_MODE × Option Ptr)
  | .CreateRasterizerState _ desc _ pp => some (desc.CullMode, pp)
  | _ => none

/-- Whether an effect is a call made on a mesh. -/
def Effect.isMeshCall : Effect → Bool
  | .Mesh_HardwareRender _ _ => true
  | .Mesh_SetSamplerState _ _ => true
  | .Mesh_SetRasterizerState _ _ => true
  | _ => false

/-- The effects of the context teardown in the destructor. -/
def contextTeardownEffects (p : Option Ptr) : List Effect :=
  match p with
  | some ctx => [Effect.ClearState ctx, Effect.Flush ctx, Effect.Release .DeviceContext ctx]
  | none => []

/-- Position of an effect in the teardown order of the destructor. -/
def teardownRank : Effect → Nat
  | .Release .SamplerState _ => 0
  | .Release .RenderTargetView _ => 1
  | .Release .RenderTargetBuffer _ => 2
  | .Release .DepthStencilView _ => 3
  | .Release .DepthStencilBuffer _ => 4
  | .Release .SwapChain _ => 5
  | .ClearState _ => 6
  | .Flush _ => 7
  | .Release .DeviceContext _ => 8
  | .Release .Device _ => 9
  | _ => 10

/-- Every occurrence of `a` in `t` comes before every occurrence of `b`. -/
def precedes (t : List Effect) (a b : Effect) : Prop :=
  ∀ i j : Nat, t[i]? = some a → t[j]? = some b → i < j

/-- The state the constructor starts `InitializeDirectX` in. -/
def constructorStart (pWindow : Nat) (width height : Int) : State :=
  { State.initial pWindow with m_Width := width, m_Height := height }

/-- The state the constructor hands to `LoadSampleState`. -/
def afterInit (pWindow : Nat) (width height : Int) (o : InitStep → HRESULT) : State :=
  let r := HardwareRenderer.InitializeDirectX (constructorStart pWindow width height) o
  if r.1 = S_OK then { r.2 with m_IsInitialized := true }
  else emit r.2 (.cout "DirectX initialization failed!\n")

/-- The creation steps of `InitializeDirectX` whose call was issued, in order of issue. -/
def issuedSteps (s : State) : List InitStep :=
  s.trace.filterMap Effect.initStep

/-- The members a call of `ToggleRenderSampleState` or `SetRasterizerState` never writes
are the same in both states. -/
def sameCore (s s1 : State) : Prop :=
  s1.toHardwareRenderer = { s.toHardwareRenderer with
    m_SampleState := s1.m_SampleState
    m_pSampleState := s1.m_pSampleState
    m_pRasterizerState := s1.m_pRasterizerState }

/-- Reference definition of the effects of one frame, following the words of the spec (Frame
Renderer), to be compared with `HardwareRenderer.Render`: on a ready pipeline a clear of the
render target to gray (uniform background) or to blue, a clear of depth to 1.0 and stencil to
0, one hardware draw delegation per mesh in input order, and one present with arguments
(0, 0); on a pipeline that is not ready nothing. -/
def Render_reference (ready : Bool) (context swapChain : Ptr) (rtv dsv : Option Ptr)
    (meshes : List MeshPtr) (useUniformBackground : Bool) : List Effect :=
  if ready then
    [Effect.ClearRenderTargetView context rtv
        (if useUniformBackground then { r := 0.1, g := 0.1, b := 0.1 }
          else { r := 0.39, g := 0.59, b := 0.93 }),
      Effect.ClearDepthStencilView context dsv true true 1 0] ++
    meshes.map (fun m => Effect.Mesh_HardwareRender m (some context)) ++
    [Effect.Present swapChain 0 0]
  else []

/-- Number of references of a kind in a list of outstanding references. -/
def countKind (l : List (Kind × Ptr)) (k : Kind) : Nat :=
  (l.filter (fun h => decide (h.1 = k))).length

/-- The pipeline manager holds its device, exactly one live sampler state (the one its member
points to), and either no rasterizer state or exactly one live rasterizer state (the one its
member points to). -/
def Managed (s : State) : Prop :=
  (∃ dev, s.m_pDevice = some dev) ∧
  (∃ p, s.m_pSampleState = some p ∧ (Kind.SamplerState, p) ∈ s.live) ∧
  liveCount s .SamplerState = 1 ∧
  ((s.m_pRasterizerState = none ∧ liveCount s .RasterizerState = 0) ∨
    (∃ r, s.m_pRasterizerState = some r ∧ (Kind.RasterizerState, r) ∈ s.live ∧
      liveCount s .RasterizerState = 1))

/-- A call whose state creation succeeds and which, for `SetRasterizerState`, is given a
non-empty mesh collection. -/
def Call.createSucceeds : Call → Prop
  | .ToggleRenderSampleState _ hr => FAILED hr = false
  | .SetRasterizerState _ pMeshes hr => pMeshes ≠ [] ∧ FAILED hr = false

/-- Whether a call is a call of `SetRasterizerState`. -/
def Call.isSetRasterizerState : Call → Bool
  | .ToggleRenderSampleState _ _ => false
  | .SetRasterizerState _ _ _ => true

/-- The kind of state a call replaces. -/
def Call.kind : Call → Kind
  | .ToggleRenderSampleState _ _ => .SamplerState
  | .SetRasterizerState _ _ _ => .RasterizerState

/-- The member holding the state of a kind. -/
def heldState (s : State) : Kind → Option Ptr
  | .SamplerState => s.m_pSampleState
  | .RasterizerState => s.m_pRasterizerState
  | _ => none

/-- A release or a creation of a sampler or rasterizer state. -/
inductive Lifecycle where
  | released (k : Kind) (p : Ptr)
  | created (k : Kind) (p : Option Ptr)
  deriving DecidableEq, Repr

/-- The release or creation of a sampler or rasterizer state an effect is, if it is one. -/
def Effect.lifecycle : Effect → Option Lifecycle
  | .Release .SamplerState p => some (.released .SamplerState p)
  | .Release .RasterizerState p => some (.released .RasterizerState p)
  | .CreateSamplerState _ _ _ pp => some (.created .SamplerState pp)
  | .CreateRasterizerState _ _ _ pp => some (.created .RasterizerState pp)
  | _ => none

/-- The release of the previous state of a kind, when there is one. -/
def releasedBefore (k : Kind) (p : Option Ptr) : List Lifecycle :=
  match p with
  | some q => [.released k q]
  | none => []

/-- The pipeline constructed for a 640 by 480 window when every creation call succeeds. -/
def readyPipeline : State :=
  (HardwareRenderer.HardwareRenderer 1 640 480 (fun _ => S_OK) S_OK).state

/-! ## Lemmas -/

/-- Emitting one effect per mesh appends the mapped effects to the trace. -/
theorem foldl_emit (f : MeshPtr → Effect) (l : List MeshPtr) (s : State) :
    (l.foldl (fun st m => emit st (f m)) s) = { s with trace := s.trace ++ l.map f } := by
  induction l generalizing s with
  | nil => simp
  | cons a l ih =>
    rw [List.foldl_cons, ih]
    simp [emit]

/-- The same fact with `emit` unfolded, the form `simp` produces. -/
theorem foldl_emit_unfolded (f : MeshPtr → Effect) (l : List MeshPtr) (s : State) :
    (l.foldl (fun st m => ({ st with trace := st.trace ++ [f m] } : State)) s) =
      { s with trace := s.trace ++ l.map f } :=
  foldl_emit f l s

/-- What `LoadSampleState` does on an object whose device is present. -/
theorem LoadSampleState_done (s : State) (dev : Ptr) (h : s.m_pDevice = some dev)
    (filter : D3D11_FILTER) (pMeshes : List MeshPtr) (hr : HRESULT) :
    HardwareRenderer.LoadSampleState s filter pMeshes hr = .done
      { toHardwareRenderer :=
          { s.toHardwareRenderer with m_pSampleState := created hr s.nextObject }
        nextObject := if FAILED hr then s.nextObject else s.nextObject + 1
        live :=
          if FAILED hr then liveAfterRelease s.live .SamplerState s.m_pSampleState
          else (Kind.SamplerState, s.nextObject) ::
            liveAfterRelease s.live .SamplerState s.m_pSampleState
        trace := s.trace ++ releaseEffects .SamplerState s.m_pSampleState ++
          [Effect.CreateSamplerState dev (sampleDescOf filter) hr (created hr s.nextObject)] ++
          (if FAILED hr then [Effect.wcout "m_pSampleState failed to load\n"] else []) ++
          pMeshes.map (fun m => Effect.Mesh_SetSamplerState m (created hr s.nextObject)) } := by
  cases hp : s.m_pSampleState <;> cases hf : FAILED hr <;>
  simp [HardwareRenderer.LoadSampleState, foldl_emit_unfolded, emit, acquire, release,
    releaseIfPresent, h, hp, hf, created, sampleDescOf, releaseEffects, liveAfterRelease]

/-- A call of `ToggleRenderSampleState` is the mode update, the three console writes and then
`LoadSampleState` with the filter of the new mode. -/
theorem ToggleRenderSampleState_eq (s : State) (pMeshes : List MeshPtr) (hr : HRESULT) :
    HardwareRenderer.ToggleRenderSampleState s pMeshes hr =
      HardwareRenderer.LoadSampleState
        { s with
          m_SampleState := s.m_SampleState.succMod
          trace := s.trace ++ [Effect.cout "\x1b[32m",
            Effect.cout "**(HARDWARE) Sampler Filter = ",
            Effect.cout (s.m_SampleState.succMod.displayName ++ "\n")] }
        s.m_SampleState.succMod.filterKind pMeshes hr := by
  cases hm : s.m_SampleState <;>
  simp [HardwareRenderer.ToggleRenderSampleState, hm, emit, SampleState.toInt, SampleState.ofInt,
    SampleState.succMod, SampleState.displayName, SampleState.filterKind]

/-- What a call of `ToggleRenderSampleState` does on an object whose device is present. -/
theorem ToggleRenderSampleState_done (s : State) (dev : Ptr) (h : s.m_pDevice = some dev)
    (pMeshes : List MeshPtr) (hr : HRESULT) :
    ∃ s1, HardwareRenderer.ToggleRenderSampleState s pMeshes hr = .done s1 ∧
      s1.toHardwareRenderer = { s.toHardwareRenderer with
        m_SampleState := s.m_SampleState.succMod
        m_pSampleState := created hr s.nextObject } ∧
      s1.nextObject = (if FAILED hr then s.nextObject else s.nextObject + 1) ∧
      s1.live = (if FAILED hr then liveAfterRelease s.live .SamplerState s.m_pSampleState
        else (Kind.SamplerState, s.nextObject) ::
          liveAfterRelease s.live .SamplerState s.m_pSampleState) ∧
      s1.trace = s.trace ++ ([Effect.cout "\x1b[32m",
          Effect.cout "**(HARDWARE) Sampler Filter = ",
          Effect.cout (s.m_SampleState.succMod.displayName ++ "\n")] ++
        releaseEffects .SamplerState s.m_pSampleState ++
        [Effect.CreateSamplerState dev (sampleDescOf s.m_SampleState.succMod.filterKind) hr
          (created hr s.nextObject)] ++
        (if FAILED hr then [Effect.wcout "m_pSampleState failed to load\n"] else []) ++
        pMeshes.map (fun m => Effect.Mesh_SetSamplerState m (created hr s.nextObject))) := by
  rw [ToggleRenderSampleState_eq, LoadSampleState_done _ dev (by exact h)]
  refine ⟨_, rfl, ?_, ?_, ?_, ?_⟩ <;> simp

/-- The effects issued are what was appended to the trace. -/
theorem emitted_of_trace_eq {s s1 : State} {l : List Effect} (h : s1.trace = s.trace ++ l) :
    emitted s s1 = l := by
  simp [emitted, h]

/-- Advancing the mode three times returns to the mode started from. -/
theorem succMod_succMod_succMod (m : SampleState) : m.succMod.succMod.succMod = m := by
  cases m <;> rfl

/-- Calls on meshes write nothing to the console. -/
theorem filterMap_coutText_map (p : Option Ptr) (l : List MeshPtr) :
    (l.map (fun m => Effect.Mesh_SetSamplerState m p)).filterMap Effect.coutText = [] := by
  induction l with
  | nil => rfl
  | cons a l ih => simp [List.filterMap_cons, Effect.coutText]

/-- Calls on meshes request no sampler state. -/
theorem filterMap_samplerRequest_map (p : Option Ptr) (l : List MeshPtr) :
    (l.map (fun m => Effect.Mesh_SetSamplerState m p)).filterMap Effect.samplerRequest = [] := by
  induction l with
  | nil => rfl
  | cons a l ih => simp [List.filterMap_cons, Effect.samplerRequest]

/-- What `SetRasterizerState` does with a non-empty collection when the device is present. -/
theorem SetRasterizerState_cons (s : State) (dev : Ptr) (h : s.m_pDevice = some dev)
    (cullMode : CullMode) (pMesh : MeshPtr) (rest : List MeshPtr) (hr : HRESULT) :
    HardwareRenderer.SetRasterizerState s cullMode (pMesh :: rest) hr =
      .done (emit (afterRasterizerCreate s dev cullMode hr)
        (.Mesh_SetRasterizerState pMesh (created hr s.nextObject))) := by
  cases hp : s.m_pRasterizerState <;> cases hf : FAILED hr <;> cases cullMode <;>
  simp [HardwareRenderer.SetRasterizerState, afterRasterizerCreate, emit, acquire, release,
    releaseIfPresent, h, hp, hf, created, rasterizerDescOf, releaseEffects, liveAfterRelease,
    CullMode.toD3D]

/-- What `SetRasterizerState` does with the empty collection when the device is present. -/
theorem SetRasterizerState_nil (s : State) (dev : Ptr) (h : s.m_pDevice = some dev)
    (cullMode : CullMode) (hr : HRESULT) :
    HardwareRenderer.SetRasterizerState s cullMode [] hr =
      .fault .indexOutOfRange (afterRasterizerCreate s dev cullMode hr) := by
  cases hp : s.m_pRasterizerState <;> cases hf : FAILED hr <;> cases cullMode <;>
  simp [HardwareRenderer.SetRasterizerState, afterRasterizerCreate, emit, acquire, release,
    releaseIfPresent, h, hp, hf, created, rasterizerDescOf, releaseEffects, liveAfterRelease,
    CullMode.toD3D]

/-- The state a mesh holds after further effects, from the state it held before. -/
theorem meshRasterizerState_append (t l : List Effect) (mesh : MeshPtr) :
    meshRasterizerState (t ++ l) mesh =
      l.foldl (meshRasterizerStep mesh) (meshRasterizerState t mesh) := by
  simp [meshRasterizerState, List.foldl_append]

/-- A guarded release leaves the members as they are. -/
theorem releaseIfPresent_members (s : State) (k : Kind) (p : Option Ptr) :
    (releaseIfPresent s k p).toHardwareRenderer = s.toHardwareRenderer := by
  cases p <;> rfl

/-- A guarded release appends its release effects to the trace. -/
theorem releaseIfPresent_trace (s : State) (k : Kind) (p : Option Ptr) :
    (releaseIfPresent s k p).trace = s.trace ++ releaseEffects k p := by
  cases p <;> simp [releaseIfPresent, release, releaseEffects]

/-- The effects of the destructor, in order. -/
theorem destructor_emitted (s : State) :
    emitted s (HardwareRenderer.destructor s) =
      releaseEffects .SamplerState s.m_pSampleState ++
      releaseEffects .RenderTargetView s.m_pRenderTargetView ++
      releaseEffects .RenderTargetBuffer s.m_pRenderTargetBuffer ++
      releaseEffects .DepthStencilView s.m_pDepthStencilView ++
      releaseEffects .DepthStencilBuffer s.m_pDepthStencilBuffer ++
      releaseEffects .SwapChain s.m_pSwapChain ++
      contextTeardownEffects s.m_pDeviceContext ++
      releaseEffects .Device s.m_pDevice := by
  cases hc : s.m_pDeviceContext <;>
  simp [emitted, HardwareRenderer.destructor, releaseIfPresent_members, releaseIfPresent_trace,
    contextTeardownEffects, hc, emit, release]

/-- The ranks of a guarded release are at most the one rank of its kind. -/
theorem releaseEffects_rank (k : Kind) (p : Option Ptr) (n : Nat)
    (h : ∀ q, teardownRank (.Release k q) = n) :
    List.Sublist ((releaseEffects k p).map teardownRank) [n] := by
  cases p with
  | none => simp [releaseEffects]
  | some q => simp [releaseEffects, h q]

/-- The ranks of the context teardown lie within 6, 7, 8 in this order. -/
theorem contextTeardown_rank (p : Option Ptr) :
    List.Sublist ((contextTeardownEffects p).map teardownRank) [6, 7, 8] := by
  cases p with
  | none => simp [contextTeardownEffects]
  | some q => simp [contextTeardownEffects, teardownRank]

/-- The ranks of the effects of the destructor form a sublist of 0, ..., 9. -/
theorem destructor_rank_sublist (s : State) :
    List.Sublist ((emitted s (HardwareRenderer.destructor s)).map teardownRank)
      (List.range 10) := by
  rw [destructor_emitted]
  simp only [List.map_append]
  have e : List.range 10 = [0] ++ [1] ++ [2] ++ [3] ++ [4] ++ [5] ++ [6, 7, 8] ++ [9] := by
    decide
  rw [e]
  refine List.Sublist.append (List.Sublist.append (List.Sublist.append (List.Sublist.append
    (List.Sublist.append (List.Sublist.append (List.Sublist.append ?_ ?_) ?_) ?_) ?_) ?_) ?_) ?_
  · exact releaseEffects_rank _ _ _ (fun _ => rfl)
  · exact releaseEffects_rank _ _ _ (fun _ => rfl)
  · exact releaseEffects_rank _ _ _ (fun _ => rfl)
  · exact releaseEffects_rank _ _ _ (fun _ => rfl)
  · exact releaseEffects_rank _ _ _ (fun _ => rfl)
  · exact releaseEffects_rank _ _ _ (fun _ => rfl)
  · exact contextTeardown_rank _
  · exact releaseEffects_rank _ _ _ (fun _ => rfl)

/-- The effects of the destructor come in strictly increasing rank. -/
theorem destructor_ranks (s : State) :
    (emitted s (HardwareRenderer.destructor s)).Pairwise
      (fun a b => teardownRank a < teardownRank b) :=
  List.pairwise_map.mp
    (List.Pairwise.sublist (destructor_rank_sublist s) (List.pairwise_lt_range 10))

/-- Every effect of the destructor has rank at most 9, the rank of the device release. -/
theorem destructor_rank_le (s : State) (e : Effect)
    (he : e ∈ emitted s (HardwareRenderer.destructor s)) : teardownRank e ≤ 9 := by
  have h1 : teardownRank e ∈ (emitted s (HardwareRenderer.destructor s)).map teardownRank :=
    List.mem_map_of_mem _ he
  have h2 := (destructor_rank_sublist s).subset h1
  have h3 := List.mem_range.mp h2
  omega

/-- In a trace of strictly increasing rank, an effect of lower rank precedes one of higher rank.
-/
theorem precedes_of_rank {t : List Effect}
    (ht : t.Pairwise (fun a b => teardownRank a < teardownRank b)) {a b : Effect}
    (hab : teardownRank a < teardownRank b) : precedes t a b := by
  unfold precedes
  intro i j hi hj
  obtain ⟨hi1, hi2⟩ := List.getElem?_eq_some.mp hi
  obtain ⟨hj1, hj2⟩ := List.getElem?_eq_some.mp hj
  by_contra hlt
  rcases Nat.lt_or_eq_of_le (Nat.le_of_not_lt hlt) with hji | hji
  · have := List.pairwise_iff_getElem.mp ht j i hj1 hi1 hji
    rw [hi2, hj2] at this
    omega
  · subst hji
    rw [hi2] at hj2
    subst hj2
    omega

/-- In a trace of strictly increasing rank, an effect precedes every different effect of rank at
least its own. -/
theorem precedes_of_rank_le {t : List Effect}
    (ht : t.Pairwise (fun a b => teardownRank a < teardownRank b)) {a b : Effect}
    (hab : teardownRank a ≤ teardownRank b) (hne : a ≠ b) : precedes t a b := by
  unfold precedes
  intro i j hi hj
  obtain ⟨hi1, hi2⟩ := List.getElem?_eq_some.mp hi
  obtain ⟨hj1, hj2⟩ := List.getElem?_eq_some.mp hj
  by_contra hlt
  rcases Nat.lt_or_eq_of_le (Nat.le_of_not_lt hlt) with hji | hji
  · have := List.pairwise_iff_getElem.mp ht j i hj1 hi1 hji
    rw [hi2, hj2] at this
    omega
  · subst hji
    rw [hi2] at hj2
    exact hne hj2

/-- What `InitializeDirectX` does when DeviceAndContext is the first step to fail. -/
theorem InitializeDirectX_fails_DeviceAndContext (s : State) (o : InitStep → HRESULT)
    (h0 : FAILED (o .DeviceAndContext) = true) :
    (HardwareRenderer.InitializeDirectX s o).1 = o .DeviceAndContext ∧
    (HardwareRenderer.InitializeDirectX s o).2.toHardwareRenderer =
      s.toHardwareRenderer ∧
    (HardwareRenderer.InitializeDirectX s o).2.trace.filterMap Effect.initStep =
      s.trace.filterMap Effect.initStep ++ [
        .DeviceAndContext] := by
  simp only [HardwareRenderer.InitializeDirectX, h0, Bool.false_eq_true,
    ↓reduceIte]
  refine ⟨trivial, rfl, ?_⟩
  simp [emit, release, acquire, List.filterMap_append, Effect.initStep]

/-- What `InitializeDirectX` does when DxgiFactory is the first step to fail. -/
theorem InitializeDirectX_fails_DxgiFactory (s : State) (o : InitStep → HRESULT)
    (h0 : FAILED (o .DeviceAndContext) = false) (h1 : FAILED (o .DxgiFactory) = true) :
    (HardwareRenderer.InitializeDirectX s o).1 = o .DxgiFactory ∧
    (HardwareRenderer.InitializeDirectX s o).2.toHardwareRenderer =
      { s.toHardwareRenderer with
        m_pDevice := some s.nextObject
        m_pDeviceContext := some (s.nextObject + 1) } ∧
    (HardwareRenderer.InitializeDirectX s o).2.trace.filterMap Effect.initStep =
      s.trace.filterMap Effect.initStep ++ [
        .DeviceAndContext, .DxgiFactory] := by
  simp only [HardwareRenderer.InitializeDirectX, h0, h1, Bool.false_eq_true,
    ↓reduceIte]
  refine ⟨trivial, rfl, ?_⟩
  simp [emit, release, acquire, List.filterMap_append, Effect.initStep]

/-- What `InitializeDirectX` does when SwapChain is the first step to fail. -/
theorem InitializeDirectX_fails_SwapChain (s : State) (o : InitStep → HRESULT)
    (h0 : FAILED (o .DeviceAndContext) = false) (h1 : FAILED (o .DxgiFactory) = false)
    (h2 : FAILED (o .SwapChain) = true) :
    (HardwareRenderer.InitializeDirectX s o).1 = o .SwapChain ∧
    (HardwareRenderer.InitializeDirectX s o).2.toHardwareRenderer =
      { s.toHardwareRenderer with
        m_pDevice := some s.nextObject
        m_pDeviceContext := some (s.nextObject + 1)
        m_pSwapChain := none } ∧
    (HardwareRenderer.InitializeDirectX s o).2.trace.filterMap Effect.initStep =
      s.trace.filterMap Effect.initStep ++ [
        .DeviceAndContext, .DxgiFactory, .SwapChain] := by
  simp only [HardwareRenderer.InitializeDirectX, h0, h1, h2, Bool.false_eq_true,
    ↓reduceIte]
  refine ⟨trivial, rfl, ?_⟩
  simp [emit, release, acquire, List.filterMap_append, Effect.initStep]

/-- What `InitializeDirectX` does when DepthStencilTexture is the first step to fail. -/
theorem InitializeDirectX_fails_DepthStencilTexture (s : State) (o : InitStep → HRESULT)
    (h0 : FAILED (o .DeviceAndContext) = false) (h1 : FAILED (o .DxgiFactory) = false)
    (h2 : FAILED (o .SwapChain) = false) (h3 : FAILED (o .DepthStencilTexture) = true) :
    (HardwareRenderer.InitializeDirectX s o).1 = o .DepthStencilTexture ∧
    (HardwareRenderer.InitializeDirectX s o).2.toHardwareRenderer =
      { s.toHardwareRenderer with
        m_pDevice := some s.nextObject
        m_pDeviceContext := some (s.nextObject + 1)
        m_pSwapChain := some (s.nextObject + 3) } ∧
    (HardwareRenderer.InitializeDirectX s o).2.trace.filterMap Effect.initStep =
      s.trace.filterMap Effect.initStep ++ [
        .DeviceAndContext, .DxgiFactory, .SwapChain, .DepthStencilTexture] := by
  simp only [HardwareRenderer.InitializeDirectX, h0, h1, h2, h3, Bool.false_eq_true,
    ↓reduceIte]
  refine ⟨trivial, rfl, ?_⟩
  simp [emit, release, acquire, List.filterMap_append, Effect.initStep]

/-- What `InitializeDirectX` does when DepthStencilView is the first step to fail. -/
theorem InitializeDirectX_fails_DepthStencilView (s : State) (o : InitStep → HRESULT)
    (h0 : FAILED (o .DeviceAndContext) = false) (h1 : FAILED (o .DxgiFactory) = false)
    (h2 : FAILED (o .SwapChain) = false) (h3 : FAILED (o .DepthStencilTexture) = false)
    (h4 : FAILED (o .DepthStencilView) = true) :
    (HardwareRenderer.InitializeDirectX s o).1 = o .DepthStencilView ∧
    (HardwareRenderer.InitializeDirectX s o).2.toHardwareRenderer =
      { s.toHardwareRenderer with
        m_pDevice := some s.nextObject
        m_pDeviceContext := some (s.nextObject + 1)
        m_pSwapChain := some (s.nextObject + 3)
        m_pDepthStencilBuffer := some (s.nextObject + 4) } ∧
    (HardwareRenderer.InitializeDirectX s o).2.trace.filterMap Effect.initStep =
      s.trace.filterMap Effect.initStep ++ [
        .DeviceAndContext, .DxgiFactory, .SwapChain, .DepthStencilTexture, .DepthStencilView] := by
  simp only [HardwareRenderer.InitializeDirectX, h0, h1, h2, h3, h4, Bool.false_eq_true,
    ↓reduceIte]
  refine ⟨trivial, rfl, ?_⟩
  simp [emit, release, acquire, List.filterMap_append, Effect.initStep]

/-- What `InitializeDirectX` does when BackBuffer is the first step to fail. -/
theorem InitializeDirectX_fails_BackBuffer (s : State) (o : InitStep → HRESULT)
    (h0 : FAILED (o .DeviceAndContext) = false) (h1 : FAILED (o .DxgiFactory) = false)
    (h2 : FAILED (o .SwapChain) = false) (h3 : FAILED (o .DepthStencilTexture) = false)
    (h4 : FAILED (o .DepthStencilView) = false) (h5 : FAILED (o .BackBuffer) = true) :
    (HardwareRenderer.InitializeDirectX s o).1 = o .BackBuffer ∧
    (HardwareRenderer.InitializeDirectX s o).2.toHardwareRenderer =
      { s.toHardwareRenderer with
        m_pDevice := some s.nextObject
        m_pDeviceContext := some (s.nextObject + 1)
        m_pSwapChain := some (s.nextObject + 3)
        m_pDepthStencilBuffer := some (s.nextObject + 4)
        m_pDepthStencilView := some (s.nextObject + 5) } ∧
    (HardwareRenderer.InitializeDirectX s o).2.trace.filterMap Effect.initStep =
      s.trace.filterMap Effect.initStep ++ [
        .DeviceAndContext, .DxgiFactory, .SwapChain, .DepthStencilTexture, .DepthStencilView,
        .BackBuffer] := by
  simp only [HardwareRenderer.InitializeDirectX, h0, h1, h2, h3, h4, h5, Bool.false_eq_true,
    ↓reduceIte]
  refine ⟨trivial, rfl, ?_⟩
  simp [emit, release, acquire, List.filterMap_append, Effect.initStep]

/-- What `InitializeDirectX` does when RenderTargetView is the first step to fail. -/
theorem InitializeDirectX_fails_RenderTargetView (s : State) (o : InitStep → HRESULT)
    (h0 : FAILED (o .DeviceAndContext) = false) (h1 : FAILED (o .DxgiFactory) = false)
    (h2 : FAILED (o .SwapChain) = false) (h3 : FAILED (o .DepthStencilTexture) = false)
    (h4 : FAILED (o .DepthStencilView) = false) (h5 : FAILED (o .BackBuffer) = false)
    (h6 : FAILED (o .RenderTargetView) = true) :
    (HardwareRenderer.InitializeDirectX s o).1 = o .RenderTargetView ∧
    (HardwareRenderer.InitializeDirectX s o).2.toHardwareRenderer =
      { s.toHardwareRenderer with
        m_pDevice := some s.nextObject
        m_pDeviceContext := some (s.nextObject + 1)
        m_pSwapChain := some (s.nextObject + 3)
        m_pDepthStencilBuffer := some (s.nextObject + 4)
        m_pDepthStencilView := some (s.nextObject + 5)
        m_pRenderTargetBuffer := some (s.nextObject + 6) } ∧
    (HardwareRenderer.InitializeDirectX s o).2.trace.filterMap Effect.initStep =
      s.trace.filterMap Effect.initStep ++ [
        .DeviceAndContext, .DxgiFactory, .SwapChain, .DepthStencilTexture, .DepthStencilView,
        .BackBuffer, .RenderTargetView] := by
  simp only [HardwareRenderer.InitializeDirectX, h0, h1, h2, h3, h4, h5, h6, Bool.false_eq_true,
    ↓reduceIte]
  refine ⟨trivial, rfl, ?_⟩
  simp [emit, release, acquire, List.filterMap_append, Effect.initStep]

/-- What `InitializeDirectX` does when no step fails. -/
theorem InitializeDirectX_succeeds (s : State) (o : InitStep → HRESULT)
    (h0 : FAILED (o .DeviceAndContext) = false) (h1 : FAILED (o .DxgiFactory) = false)
    (h2 : FAILED (o .SwapChain) = false) (h3 : FAILED (o .DepthStencilTexture) = false)
    (h4 : FAILED (o .DepthStencilView) = false) (h5 : FAILED (o .BackBuffer) = false)
    (h6 : FAILED (o .RenderTargetView) = false) :
    (HardwareRenderer.InitializeDirectX s o).1 = S_OK ∧
    (HardwareRenderer.InitializeDirectX s o).2.toHardwareRenderer =
      { s.toHardwareRenderer with
        m_pDevice := some s.nextObject
        m_pDeviceContext := some (s.nextObject + 1)
        m_pSwapChain := some (s.nextObject + 3)
        m_pDepthStencilBuffer := some (s.nextObject + 4)
        m_pDepthStencilView := some (s.nextObject + 5)
        m_pRenderTargetBuffer := some (s.nextObject + 6)
        m_pRenderTargetView := some (s.nextObject + 7) } ∧
    (HardwareRenderer.InitializeDirectX s o).2.trace.filterMap Effect.initStep =
      s.trace.filterMap Effect.initStep ++ [
        .DeviceAndContext, .DxgiFactory, .SwapChain, .DepthStencilTexture, .DepthStencilView,
        .BackBuffer, .RenderTargetView] ∧
    (HardwareRenderer.InitializeDirectX s o).2.live =
      [(Kind.RenderTargetView, s.nextObject + 7), (Kind.RenderTargetBuffer, s.nextObject + 6),
        (Kind.DepthStencilView, s.nextObject + 5), (Kind.DepthStencilBuffer, s.nextObject + 4),
        (Kind.SwapChain, s.nextObject + 3), (Kind.DeviceContext, s.nextObject + 1),
        (Kind.Device, s.nextObject)] ++ s.live ∧
    (HardwareRenderer.InitializeDirectX s o).2.nextObject = s.nextObject + 8 := by
  simp only [HardwareRenderer.InitializeDirectX, h0, h1, h2, h3, h4, h5, h6, Bool.false_eq_true,
    ↓reduceIte]
  refine ⟨trivial, rfl, ?_, ?_, ?_⟩
  · simp [emit, release, acquire, List.filterMap_append, Effect.initStep]
  · simp [emit, release, acquire, List.erase_cons]
  · simp [emit, release, acquire]

/-- A property of all steps is the conjunction over the seven steps. -/
theorem InitStep.forall_iff (P : InitStep → Prop) :
    (∀ k, P k) ↔ P .DeviceAndContext ∧ P .DxgiFactory ∧ P .SwapChain ∧ P .DepthStencilTexture ∧
      P .DepthStencilView ∧ P .BackBuffer ∧ P .RenderTargetView := by
  constructor
  · intro h
    exact ⟨h _, h _, h _, h _, h _, h _, h _⟩
  · rintro ⟨h0, h1, h2, h3, h4, h5, h6⟩ k
    cases k <;> assumption

/-- A failure code is not `S_OK`. -/
theorem ne_zero_of_FAILED {hr : HRESULT} (h : FAILED hr = true) : ¬ hr = 0 := by
  intro h0
  subst h0
  simp [FAILED] at h

/-- With a null device `LoadSampleState` stops in the dereference of `m_pDevice`, after the
guarded release. -/
theorem LoadSampleState_null (s : State) (h : s.m_pDevice = none) (filter : D3D11_FILTER)
    (pMeshes : List MeshPtr) (hr : HRESULT) :
    HardwareRenderer.LoadSampleState s filter pMeshes hr =
      .fault .nullDereference (releaseIfPresent s .SamplerState s.m_pSampleState) := by
  cases hp : s.m_pSampleState <;>
  simp [HardwareRenderer.LoadSampleState, releaseIfPresent, release, h, hp]

/-- The constructor is `LoadSampleState` run on the state left by the initialisation. -/
theorem constructor_eq (pWindow : Nat) (width height : Int) (o : InitStep → HRESULT)
    (hrSampler : HRESULT) :
    HardwareRenderer.HardwareRenderer pWindow width height o hrSampler =
      HardwareRenderer.LoadSampleState (afterInit pWindow width height o)
        .MIN_MAG_MIP_POINT [] hrSampler := rfl

/-- A partial map that rejects every image of `g` yields nothing on a list of such images. -/
theorem filterMap_map_eq_nil {α β γ : Type} (f : β → Option γ) (g : α → β)
    (h : ∀ x, f (g x) = none) (l : List α) : (l.map g).filterMap f = [] := by
  induction l with
  | nil => rfl
  | cons x l ih => simp [List.filterMap_cons, h x, ih]

/-- Whatever the device pointer is, `LoadSampleState` changes no member but the sampler state
pointer and issues no creation call of an initialisation step. -/
theorem LoadSampleState_frame (a : State) (filter : D3D11_FILTER) (pMeshes : List MeshPtr)
    (hr : HRESULT) :
    (HardwareRenderer.LoadSampleState a filter pMeshes hr).state.toHardwareRenderer =
      { a.toHardwareRenderer with
        m_pSampleState :=
          (HardwareRenderer.LoadSampleState a filter pMeshes hr).state.m_pSampleState } ∧
    (HardwareRenderer.LoadSampleState a filter pMeshes hr).state.trace.filterMap Effect.initStep =
      a.trace.filterMap Effect.initStep := by
  obtain ⟨⟨w, wd, ht, ini, mode, dev, ctx, sc, dsb, dsv, rtb, rtv, samp, rast⟩, n, live, tr⟩ := a
  cases dev <;> cases samp <;> cases hf : FAILED hr <;>
  simp [HardwareRenderer.LoadSampleState, foldl_emit_unfolded, releaseIfPresent, release, emit,
    acquire, Outcome.state, hf, List.filterMap_append, Effect.initStep,
    filterMap_map_eq_nil]

set_option maxHeartbeats 1000000 in
/-- What the constructor leaves behind, for every answer of the driver to the seven creation
steps: readiness, the core pointers, and the creation calls issued. -/
theorem constructor_post (pWindow : Nat) (width height : Int) (o : InitStep → HRESULT)
    (hrSampler : HRESULT) :
    let s := (HardwareRenderer.HardwareRenderer pWindow width height o hrSampler).state
    (s.m_IsInitialized = true ↔ ∀ k, FAILED (o k) = false) ∧
    ((∀ k, FAILED (o k) = false) →
      s.m_pDevice.isSome ∧ s.m_pDeviceContext.isSome ∧ s.m_pSwapChain.isSome ∧
      s.m_pDepthStencilView.isSome ∧ s.m_pRenderTargetView.isSome) ∧
    (∀ k, FAILED (o k) = true → (∀ j, j.index < k.index → FAILED (o j) = false) →
      (∀ j, j.index ≤ k.index → j ∈ issuedSteps s) ∧
      (∀ j, k.index < j.index → j ∉ issuedSteps s ∧ ∀ p ∈ j.handles s, p = none)) := by
  intro s
  obtain ⟨hmem, htr⟩ := LoadSampleState_frame (afterInit pWindow width height o)
    .MIN_MAG_MIP_POINT [] hrSampler
  rw [← constructor_eq pWindow width height o hrSampler] at hmem htr
  have m1 := congrArg HardwareRenderer.m_IsInitialized hmem
  have m2 := congrArg HardwareRenderer.m_pDevice hmem
  have m3 := congrArg HardwareRenderer.m_pDeviceContext hmem
  have m4 := congrArg HardwareRenderer.m_pSwapChain hmem
  have m5 := congrArg HardwareRenderer.m_pDepthStencilBuffer hmem
  have m6 := congrArg HardwareRenderer.m_pDepthStencilView hmem
  have m7 := congrArg HardwareRenderer.m_pRenderTargetBuffer hmem
  have m8 := congrArg HardwareRenderer.m_pRenderTargetView hmem
  simp only [] at m1 m2 m3 m4 m5 m6 m7 m8
  simp only [InitStep.forall_iff, issuedSteps, InitStep.handles, s, m1, m2, m3, m4, m5, m6, m7,
    m8, htr]
  clear hmem htr m1 m2 m3 m4 m5 m6 m7 m8 s
  cases h0 : FAILED (o .DeviceAndContext)
  case true =>
    obtain ⟨e1, e2, e3⟩ := InitializeDirectX_fails_DeviceAndContext
      (constructorStart pWindow width height) o h0
    simp only [afterInit, e1, S_OK, if_neg (ne_zero_of_FAILED h0), emit,
      List.filterMap_append, e2, e3]
    simp [constructorStart, State.initial, List.filterMap_append, Effect.initStep,
      InitStep.index, h0]
  case false =>
  cases h1 : FAILED (o .DxgiFactory)
  case true =>
    obtain ⟨e1, e2, e3⟩ := InitializeDirectX_fails_DxgiFactory
      (constructorStart pWindow width height) o h0 h1
    simp only [afterInit, e1, S_OK, if_neg (ne_zero_of_FAILED h1), emit,
      List.filterMap_append, e2, e3]
    simp [constructorStart, State.initial, List.filterMap_append, Effect.initStep,
      InitStep.index, h0, h1]
  case false =>
  cases h2 : FAILED (o .SwapChain)
  case true =>
    obtain ⟨e1, e2, e3⟩ := InitializeDirectX_fails_SwapChain
      (constructorStart pWindow width height) o h0 h1 h2
    simp only [afterInit, e1, S_OK, if_neg (ne_zero_of_FAILED h2), emit,
      List.filterMap_append, e2, e3]
    simp [constructorStart, State.initial, List.filterMap_append, Effect.initStep,
      InitStep.index, h0, h1, h2]
  case false =>
  cases h3 : FAILED (o .DepthStencilTexture)
  case true =>
    obtain ⟨e1, e2, e3⟩ := InitializeDirectX_fails_DepthStencilTexture
      (constructorStart pWindow width height) o h0 h1 h2 h3
    simp only [afterInit, e1, S_OK, if_neg (ne_zero_of_FAILED h3), emit,
      List.filterMap_append, e2, e3]
    simp [constructorStart, State.initial, List.filterMap_append, Effect.initStep,
      InitStep.index, h0, h1, h2, h3]
  case false =>
  cases h4 : FAILED (o .DepthStencilView)
  case true =>
    obtain ⟨e1, e2, e3⟩ := InitializeDirectX_fails_DepthStencilView
      (constructorStart pWindow width height) o h0 h1 h2 h3 h4
    simp only [afterInit, e1, S_OK, if_neg (ne_zero_of_FAILED h4), emit,
      List.filterMap_append, e2, e3]
    simp [constructorStart, State.initial, List.filterMap_append, Effect.initStep,
      InitStep.index, h0, h1, h2, h3, h4]
  case false =>
  cases h5 : FAILED (o .BackBuffer)
  case true =>
    obtain ⟨e1, e2, e3⟩ := InitializeDirectX_fails_BackBuffer
      (constructorStart pWindow width height) o h0 h1 h2 h3 h4 h5
    simp only [afterInit, e1, S_OK, if_neg (ne_zero_of_FAILED h5), emit,
      List.filterMap_append, e2, e3]
    simp [constructorStart, State.initial, List.filterMap_append, Effect.initStep,
      InitStep.index, h0, h1, h2, h3, h4, h5]
  case false =>
  cases h6 : FAILED (o .RenderTargetView)
  case true =>
    obtain ⟨e1, e2, e3⟩ := InitializeDirectX_fails_RenderTargetView
      (constructorStart pWindow width height) o h0 h1 h2 h3 h4 h5 h6
    simp only [afterInit, e1, S_OK, if_neg (ne_zero_of_FAILED h6), emit,
      List.filterMap_append, e2, e3]
    simp [constructorStart, State.initial, List.filterMap_append, Effect.initStep,
      InitStep.index, h0, h1, h2, h3, h4, h5, h6]
  case false =>
    obtain ⟨e1, e2, e3, -, -⟩ := InitializeDirectX_succeeds
      (constructorStart pWindow width height) o h0 h1 h2 h3 h4 h5 h6
    simp only [afterInit, e1, e2, e3, if_true]
    simp [constructorStart, State.initial, List.filterMap_append, Effect.initStep,
      InitStep.index, h0, h1, h2, h3, h4, h5, h6]

/-- Every state has the same core as itself. -/
theorem sameCore_refl (s : State) : sameCore s s := rfl

/-- Having the same core is transitive. -/
theorem sameCore_trans {s s1 s2 : State} (h1 : sameCore s s1) (h2 : sameCore s1 s2) :
    sameCore s s2 := by
  unfold sameCore at *
  rw [h2, h1]

/-- A call, whatever its outcome, writes only the filter mode and the two state pointers. -/
theorem Call_exec_sameCore (s : State) (c : Call) : sameCore s (c.exec s).state := by
  obtain ⟨⟨w, wd, ht, ini, mode, dev, ctx, sc, dsb, dsv, rtb, rtv, samp, rast⟩, n, live, tr⟩ := s
  cases c with
  | ToggleRenderSampleState pMeshes hr =>
    cases dev <;> cases samp <;> cases hf : FAILED hr <;> cases mode <;>
    simp [sameCore, Call.exec, HardwareRenderer.ToggleRenderSampleState,
      HardwareRenderer.LoadSampleState, foldl_emit_unfolded, releaseIfPresent, release, emit,
      acquire, Outcome.state, hf, SampleState.toInt, SampleState.ofInt]
  | SetRasterizerState cullMode pMeshes hr =>
    cases dev <;> cases rast <;> cases hf : FAILED hr <;> cases pMeshes <;>
    simp [sameCore, Call.exec, HardwareRenderer.SetRasterizerState, releaseIfPresent, release,
      emit, acquire, Outcome.state, hf]

/-- A run of calls, whatever its outcome, writes only the filter mode and the two state pointers.
-/
theorem runCalls_sameCore (calls : List Call) (s : State) :
    sameCore s (runCalls s calls).state := by
  induction calls generalizing s with
  | nil => exact sameCore_refl s
  | cons c cs ih =>
    have hc := Call_exec_sameCore s c
    unfold runCalls
    cases hx : c.exec s with
    | done s1 =>
      rw [hx] at hc
      exact sameCore_trans hc (ih s1)
    | fault f s1 =>
      rw [hx] at hc
      exact hc

/-- Continuing a run writes only the filter mode and the two state pointers. -/
theorem thenCalls_sameCore (r : Outcome) (calls : List Call) :
    sameCore r.state (r.thenCalls calls).state := by
  cases r with
  | done s => exact runCalls_sameCore calls s
  | fault f s => exact sameCore_refl s

/-- On a pipeline that is not ready `Render` does nothing. -/
theorem Render_not_ready (s : State) (h : s.m_IsInitialized = false) (pMeshes : List MeshPtr)
    (useUniformBackground : Bool) :
    HardwareRenderer.Render s pMeshes useUniformBackground = .done s := by
  simp [HardwareRenderer.Render, h]

/-- On a ready pipeline with context and swap chain present `Render` appends the frame effects. -/
theorem Render_ready (s : State) (h : s.m_IsInitialized = true) (ctx sc : Ptr)
    (hc : s.m_pDeviceContext = some ctx) (hs : s.m_pSwapChain = some sc)
    (pMeshes : List MeshPtr) (useUniformBackground : Bool) :
    HardwareRenderer.Render s pMeshes useUniformBackground =
      .done { s with trace := s.trace ++ (Render_reference true ctx sc s.m_pRenderTargetView
        s.m_pDepthStencilView pMeshes useUniformBackground) } := by
  simp [HardwareRenderer.Render, h, hc, hs, foldl_emit_unfolded, emit, Render_reference]

/-- The count of live references of a state, as a count on its list. -/
theorem liveCount_eq (s : State) (k : Kind) : liveCount s k = countKind s.live k := rfl

/-- Counting after one more reference. -/
theorem countKind_cons (l : List (Kind × Ptr)) (k k1 : Kind) (p : Ptr) :
    countKind ((k1, p) :: l) k = countKind l k + (if k1 = k then 1 else 0) := by
  by_cases h : k1 = k <;> simp [countKind, List.filter_cons, h]

/-- Giving back a live reference lowers the count of its kind by one. -/
theorem countKind_erase_same (l : List (Kind × Ptr)) (k : Kind) (p : Ptr)
    (h : (k, p) ∈ l) : countKind (l.erase (k, p)) k + 1 = countKind l k := by
  induction l with
  | nil => simp at h
  | cons a l ih =>
    by_cases ha : a = (k, p)
    · subst ha
      simp [countKind, List.filter_cons]
    · have hm : (k, p) ∈ l := by
        rcases List.mem_cons.mp h with e | e
        · exact absurd e.symm ha
        · exact e
      have ih1 := ih hm
      rw [List.erase_cons_tail (by simpa using ha)]
      obtain ⟨k1, p1⟩ := a
      rw [countKind_cons, countKind_cons]
      omega

/-- Giving back a reference leaves the count of every other kind unchanged. -/
theorem countKind_erase_other (l : List (Kind × Ptr)) (k k1 : Kind) (p : Ptr) (h : k1 ≠ k) :
    countKind (l.erase (k1, p)) k = countKind l k := by
  induction l with
  | nil => rfl
  | cons a l ih =>
    by_cases ha : a = (k1, p)
    · subst ha
      simp [countKind, List.filter_cons, h]
    · rw [List.erase_cons_tail (by simpa using ha)]
      obtain ⟨k2, p2⟩ := a
      rw [countKind_cons, countKind_cons, ih]

/-- Giving back a reference of another kind keeps a reference live. -/
theorem mem_erase_other {l : List (Kind × Ptr)} {k k1 : Kind} {p p1 : Ptr} (h : k1 ≠ k)
    (hm : (k, p) ∈ l) : (k, p) ∈ l.erase (k1, p1) := by
  refine (List.mem_erase_of_ne ?_).mpr hm
  intro e
  exact h (congrArg Prod.fst e).symm

/-- One successful call on a managed state: it completes in a managed state, and among the
effects it issues the release of the previous state comes first, then the creation. -/
theorem Call_exec_managed (s : State) (hs : Managed s) (c : Call) (hc : c.createSucceeds) :
    ∃ s1 new, c.exec s = .done s1 ∧ Managed s1 ∧
      heldState s1 c.kind = some new ∧
      (emitted s s1).filterMap Effect.lifecycle =
        releasedBefore c.kind (heldState s c.kind) ++ [.created c.kind (some new)] ∧
      (c.isSetRasterizerState = true ∨ s.m_pRasterizerState ≠ none →
        s1.m_pRasterizerState ≠ none) := by
  obtain ⟨⟨dev, hdev⟩, ⟨p, hp, hpl⟩, hcs, hr⟩ := hs
  cases c with
  | ToggleRenderSampleState pMeshes hr1 =>
    have hf : FAILED hr1 = false := hc
    obtain ⟨s1, hrun, hmem, hnext, hlive, htrace⟩ :=
      ToggleRenderSampleState_done s dev hdev pMeshes hr1
    have e1 := congrArg HardwareRenderer.m_pDevice hmem
    have e2 := congrArg HardwareRenderer.m_pSampleState hmem
    have e3 := congrArg HardwareRenderer.m_pRasterizerState hmem
    simp only [created, hf, Bool.false_eq_true, if_false] at e1 e2 e3
    simp only [hf, Bool.false_eq_true, if_false, hp, liveAfterRelease] at hlive
    refine ⟨s1, s.nextObject, hrun, ⟨⟨dev, e1.trans hdev⟩, ⟨s.nextObject, e2, ?_⟩, ?_, ?_⟩,
      e2, ?_, ?_⟩
    · rw [hlive]
      exact List.mem_cons_self _ _
    · have := countKind_erase_same s.live .SamplerState p hpl
      rw [liveCount_eq] at hcs ⊢
      rw [hlive, countKind_cons]
      simp only [if_true]
      omega
    · rw [liveCount_eq, hlive, countKind_cons,
        countKind_erase_other _ _ _ _ (by decide : Kind.SamplerState ≠ Kind.RasterizerState)]
      rcases hr with ⟨h1, h2⟩ | ⟨r, h1, h2, h3⟩
      · left
        exact ⟨e3.trans h1, by simpa [liveCount_eq] using h2⟩
      · right
        refine ⟨r, e3.trans h1, ?_, by simpa [liveCount_eq] using h3⟩
        exact List.mem_cons_of_mem _ (mem_erase_other (by decide) h2)
    · rw [emitted_of_trace_eq htrace]
      simp [heldState, Call.kind, hp, releasedBefore, releaseEffects, created, hf,
        List.filterMap_append, List.filterMap_cons, Effect.lifecycle, filterMap_map_eq_nil]
    · intro h
      rcases h with h | h
      · simp [Call.isSetRasterizerState] at h
      · rw [e3]
        exact h
  | SetRasterizerState cullMode pMeshes hr1 =>
    obtain ⟨hne, hf⟩ : pMeshes ≠ [] ∧ FAILED hr1 = false := hc
    obtain ⟨pMesh, rest, rfl⟩ := List.exists_cons_of_ne_nil hne
    have hrun := SetRasterizerState_cons s dev hdev cullMode pMesh rest hr1
    refine ⟨_, s.nextObject, hrun, ⟨⟨dev, ?_⟩, ⟨p, ?_, ?_⟩, ?_, ?_⟩, ?_, ?_, ?_⟩
    · simpa [emit, afterRasterizerCreate] using hdev
    · simpa [emit, afterRasterizerCreate] using hp
    · rcases hr with ⟨h1, h2⟩ | ⟨r, h1, h2, h3⟩
      · simpa [emit, afterRasterizerCreate, hf, h1, liveAfterRelease] using hpl
      · simp only [emit, afterRasterizerCreate, hf, h1, liveAfterRelease, Bool.false_eq_true,
          if_false]
        exact List.mem_cons_of_mem _ (mem_erase_other (by decide) hpl)
    · rw [liveCount_eq] at hcs ⊢
      rcases hr with ⟨h1, h2⟩ | ⟨r, h1, h2, h3⟩
      · simp only [emit, afterRasterizerCreate, hf, h1, liveAfterRelease, Bool.false_eq_true,
          if_false, countKind_cons]
        simpa using hcs
      · simp only [emit, afterRasterizerCreate, hf, h1, liveAfterRelease, Bool.false_eq_true,
          if_false, countKind_cons]
        rw [countKind_erase_other _ _ _ _ (by decide : Kind.RasterizerState ≠ Kind.SamplerState)]
        simpa using hcs
    · right
      refine ⟨s.nextObject, ?_, ?_, ?_⟩
      · simp [emit, afterRasterizerCreate, created, hf]
      · simp [emit, afterRasterizerCreate, hf]
      · rw [liveCount_eq]
        rcases hr with ⟨h1, h2⟩ | ⟨r, h1, h2, h3⟩
        · simp only [emit, afterRasterizerCreate, hf, h1, liveAfterRelease, Bool.false_eq_true,
            if_false, countKind_cons]
          rw [liveCount_eq] at h2
          simp [h2]
        · have := countKind_erase_same s.live .RasterizerState r h2
          rw [liveCount_eq] at h3
          simp only [emit, afterRasterizerCreate, hf, h1, liveAfterRelease, Bool.false_eq_true,
            if_false, countKind_cons, if_true]
          omega
    · simp [heldState, Call.kind, emit, afterRasterizerCreate, created, hf]
    · cases hq : s.m_pRasterizerState <;>
      simp [emitted, heldState, Call.kind, emit, afterRasterizerCreate, created, hf, hq,
        releasedBefore, releaseEffects, List.filterMap_append, List.filterMap_cons,
        Effect.lifecycle]
    · intro _
      simp [emit, afterRasterizerCreate, created, hf]

/-- A run of successful calls from a managed state completes in a managed state, which holds a
rasterizer state if the start did or the run set one. -/
theorem runCalls_managed (calls : List Call) (s : State) (hs : Managed s)
    (hc : ∀ c ∈ calls, c.createSucceeds) :
    ∃ s1, runCalls s calls = .done s1 ∧ Managed s1 ∧
      ((s.m_pRasterizerState ≠ none ∨ ∃ c ∈ calls, c.isSetRasterizerState = true) →
        s1.m_pRasterizerState ≠ none) := by
  induction calls generalizing s with
  | nil =>
    refine ⟨s, rfl, hs, ?_⟩
    intro h
    rcases h with h | ⟨c, hm, -⟩
    · exact h
    · simp at hm
  | cons c cs ih =>
    obtain ⟨s1, new, hrun, hm1, -, -, hr1⟩ :=
      Call_exec_managed s hs c (hc c (List.mem_cons_self _ _))
    obtain ⟨s2, hrun2, hm2, hr2⟩ := ih s1 hm1 (fun d hd => hc d (List.mem_cons_of_mem _ hd))
    refine ⟨s2, ?_, hm2, ?_⟩
    · simp [runCalls, hrun, hrun2]
    · intro h
      apply hr2
      rcases h with h | ⟨d, hd, hd2⟩
      · exact Or.inl (hr1 (Or.inr h))
      · rcases List.mem_cons.mp hd with e | e
        · subst e
          exact Or.inl (hr1 (Or.inl hd2))
        · exact Or.inr ⟨d, e, hd2⟩

/-- When no creation step fails, the constructor completes in a managed state that holds no
rasterizer state yet. -/
theorem constructor_managed (pWindow : Nat) (width height : Int) (o : InitStep → HRESULT)
    (hrSampler : HRESULT) (hInit : ∀ k, FAILED (o k) = false) (hS : FAILED hrSampler = false) :
    ∃ s, HardwareRenderer.HardwareRenderer pWindow width height o hrSampler = .done s ∧
      Managed s ∧ s.m_pRasterizerState = none := by
  obtain ⟨e1, e2, -, e4, e5⟩ := InitializeDirectX_succeeds
    (constructorStart pWindow width height) o (hInit _) (hInit _) (hInit _) (hInit _) (hInit _)
    (hInit _) (hInit _)
  have ha : afterInit pWindow width height o =
      { (HardwareRenderer.InitializeDirectX (constructorStart pWindow width height) o).2 with
        m_IsInitialized := true } := by
    simp only [afterInit, e1, if_true]
  have hd : (afterInit pWindow width height o).m_pDevice = some 0 := by
    rw [ha]
    simp only [e2]
    rfl
  have hp : (afterInit pWindow width height o).m_pSampleState = none := by
    rw [ha]
    simp only [e2]
    rfl
  have hq : (afterInit pWindow width height o).m_pRasterizerState = none := by
    rw [ha]
    simp only [e2]
    rfl
  have hl : (afterInit pWindow width height o).live =
      [(Kind.RenderTargetView, 7), (Kind.RenderTargetBuffer, 6), (Kind.DepthStencilView, 5),
        (Kind.DepthStencilBuffer, 4), (Kind.SwapChain, 3), (Kind.DeviceContext, 1),
        (Kind.Device, 0)] := by
    rw [ha]
    simp only [e4]
    rfl
  have hn : (afterInit pWindow width height o).nextObject = 8 := by
    rw [ha]
    simp only [e5]
    rfl
  rw [constructor_eq, LoadSampleState_done _ 0 hd]
  refine ⟨_, rfl, ⟨⟨0, hd⟩, ⟨8, ?_, ?_⟩, ?_, Or.inl ⟨hq, ?_⟩⟩, hq⟩
  · simp [created, hS, hn]
  · simp [hS, hn]
  · simp [liveCount, hS, hp, hl, liveAfterRelease, List.filter_cons]
  · simp [liveCount, hS, hp, hl, liveAfterRelease, List.filter_cons]

/-! ## Claims -/

/-- Claim C1. Initialisation is an all-or-nothing gate chain. For every assignment of result
codes to the seven creation steps (and every answer to the sampler creation), in the state the
constructor ends in: the readiness flag is set exactly when no step failed; when no step failed
the device, context, swap chain, depth-stencil view and render-target view pointers are all
non-null; and when step `k` is the first to fail, the creation call of every step up to `k` was
issued, no creation call of a later step was issued, and the members written by later steps are
still null. -/
theorem init_all_or_nothing (pWindow : Nat) (width height : Int) (o : InitStep → HRESULT)
    (hrSampler : HRESULT) :
    let s := (HardwareRenderer.HardwareRenderer pWindow width height o hrSampler).state
    (s.m_IsInitialized = true ↔ ∀ k, FAILED (o k) = false) ∧
    ((∀ k, FAILED (o k) = false) →
      s.m_pDevice.isSome ∧ s.m_pDeviceContext.isSome ∧ s.m_pSwapChain.isSome ∧
      s.m_pDepthStencilView.isSome ∧ s.m_pRenderTargetView.isSome) ∧
    (∀ k, FAILED (o k) = true → (∀ j, j.index < k.index → FAILED (o j) = false) →
      (∀ j, j.index ≤ k.index → j ∈ issuedSteps s) ∧
      (∀ j, k.index < j.index → j ∉ issuedSteps s ∧ ∀ p ∈ j.handles s, p = none)) :=
  constructor_post pWindow width height o hrSampler

/-- Witness for C1: when the swap chain creation is the first step to fail (with `E_FAIL`),
the pipeline is not ready, the depth-stencil texture is never requested and its member stays
null. -/
theorem init_all_or_nothing_witness :
    FAILED ((fun k => if k = InitStep.SwapChain then -2147467259 else S_OK)
      InitStep.SwapChain) = true ∧
    (HardwareRenderer.HardwareRenderer 1 640 480
      (fun k => if k = InitStep.SwapChain then -2147467259 else S_OK) S_OK).state.m_IsInitialized
      = false ∧
    InitStep.DepthStencilTexture ∉ issuedSteps (HardwareRenderer.HardwareRenderer 1 640 480
      (fun k => if k = InitStep.SwapChain then -2147467259 else S_OK) S_OK).state ∧
    (HardwareRenderer.HardwareRenderer 1 640 480
      (fun k => if k = InitStep.SwapChain then -2147467259 else S_OK)
      S_OK).state.m_pDepthStencilBuffer = none := by
  obtain ⟨h1, -, h3⟩ := init_all_or_nothing 1 640 480
    (fun k => if k = InitStep.SwapChain then -2147467259 else S_OK) S_OK
  have h4 := (h3 .SwapChain (by decide)
    (by intro j hj; cases j <;> first | rfl | exact absurd hj (by decide))).2
    .DepthStencilTexture (by decide)
  refine ⟨by decide, ?_, h4.1, h4.2 _ (List.mem_singleton_self _)⟩
  apply Bool.eq_false_iff.mpr
  intro hready
  exact absurd (h1.mp hready .SwapChain) (by decide)

/-- Claim C2 (the code departs from it). The claim says construction runs to completion for
every initialisation outcome and that the sampler state load of the constructor never uses a
null device. Evaluated on the outcome where device creation fails with `E_FAIL`, the
constructor logs the diagnostic, leaves the flag cleared, and then stops in the null
dereference of `m_pDevice` inside `LoadSampleState`. -/
theorem constructor_faults_without_device :
    (HardwareRenderer.HardwareRenderer 1 640 480
        (fun k => if k = .DeviceAndContext then -2147467259 else S_OK) S_OK) =
      .fault .nullDereference
        { State.initial 1 with
          m_Width := 640
          m_Height := 480
          trace := [Effect.D3D11CreateDevice (-2147467259) none none,
            Effect.cout "DirectX initialization failed!\n"] } := by
  decide

/-- Claim C3. The effects of `Render` equal the reference definition `Render_reference`, for
every mesh list and every flag value, on every state reached by construction (with any outcome
of the driver) followed by any calls of `ToggleRenderSampleState` and `SetRasterizerState`: when
the pipeline is not ready nothing is issued; when it is ready the context and the swap chain
are present and the effects are the clear of the render target (gray (0.1, 0.1, 0.1) for a
uniform background, blue (0.39, 0.59, 0.93) otherwise), the clear of depth to 1.0 and stencil
to 0, one draw delegation per mesh in input order, and one `Present(0, 0)`. `Render` changes
nothing else. In particular the reference for an empty mesh list without uniform background is
the blue clear, the depth-stencil clear and one present. -/
theorem render_effects (pWindow : Nat) (width height : Int) (o : InitStep → HRESULT)
    (hrSampler : HRESULT) (calls : List Call) (pMeshes : List MeshPtr)
    (useUniformBackground : Bool) :
    let s := ((HardwareRenderer.HardwareRenderer pWindow width height o hrSampler).thenCalls
      calls).state
    ∃ ctx sc,
      (s.m_IsInitialized = true → s.m_pDeviceContext = some ctx ∧ s.m_pSwapChain = some sc) ∧
      HardwareRenderer.Render s pMeshes useUniformBackground =
        .done { s with trace := s.trace ++ (Render_reference s.m_IsInitialized ctx sc
          s.m_pRenderTargetView s.m_pDepthStencilView pMeshes useUniformBackground) } ∧
      Render_reference false ctx sc s.m_pRenderTargetView s.m_pDepthStencilView pMeshes
        useUniformBackground = [] ∧
      Render_reference true ctx sc s.m_pRenderTargetView s.m_pDepthStencilView [] false =
        [Effect.ClearRenderTargetView ctx s.m_pRenderTargetView
            { r := 0.39, g := 0.59, b := 0.93 },
          Effect.ClearDepthStencilView ctx s.m_pDepthStencilView true true 1 0,
          Effect.Present sc 0 0] := by
  intro s
  have hcore := thenCalls_sameCore
    (HardwareRenderer.HardwareRenderer pWindow width height o hrSampler) calls
  obtain ⟨hready, hptr, -⟩ := constructor_post pWindow width height o hrSampler
  have c1 := congrArg HardwareRenderer.m_IsInitialized hcore
  have c2 := congrArg HardwareRenderer.m_pDeviceContext hcore
  have c3 := congrArg HardwareRenderer.m_pSwapChain hcore
  simp only [] at c1 c2 c3
  have hspec : ∀ ctx sc,
      Render_reference false ctx sc s.m_pRenderTargetView s.m_pDepthStencilView pMeshes
        useUniformBackground = [] ∧
      Render_reference true ctx sc s.m_pRenderTargetView s.m_pDepthStencilView [] false =
        [Effect.ClearRenderTargetView ctx s.m_pRenderTargetView
            { r := 0.39, g := 0.59, b := 0.93 },
          Effect.ClearDepthStencilView ctx s.m_pDepthStencilView true true 1 0,
          Effect.Present sc 0 0] := by
    intro ctx sc
    simp [Render_reference]
  cases hi : s.m_IsInitialized with
  | false =>
    refine ⟨0, 0, by simp, ?_, hspec 0 0⟩
    rw [Render_not_ready s hi]
    simp [Render_reference]
  | true =>
    have hall := hready.mp (c1.symm.trans hi)
    obtain ⟨-, h2, h3, -, -⟩ := hptr hall
    rw [← c2] at h2
    rw [← c3] at h3
    obtain ⟨ctx, hctx⟩ := Option.isSome_iff_exists.mp h2
    obtain ⟨sc, hsc⟩ := Option.isSome_iff_exists.mp h3
    exact ⟨ctx, sc, fun _ => ⟨hctx, hsc⟩, Render_ready s hi ctx sc hctx hsc _ _, hspec ctx sc⟩

/-- Witness for C3: on the pipeline constructed with every step succeeding, `Render([], false)`
completes and issues exactly the blue clear, the depth-stencil clear and one present. -/
theorem render_effects_witness :
    (HardwareRenderer.HardwareRenderer 1 640 480 (fun _ => S_OK) S_OK).state.m_IsInitialized
      = true ∧
    ∃ s1, HardwareRenderer.Render
        (HardwareRenderer.HardwareRenderer 1 640 480 (fun _ => S_OK) S_OK).state [] false =
          .done s1 ∧
      emitted (HardwareRenderer.HardwareRenderer 1 640 480 (fun _ => S_OK) S_OK).state s1 =
        [Effect.ClearRenderTargetView 1 (some 7) { r := 0.39, g := 0.59, b := 0.93 },
          Effect.ClearDepthStencilView 1 (some 5) true true 1 0,
          Effect.Present 3 0 0] := by
  obtain ⟨ctx, sc, h1, h2, -, h4⟩ :=
    render_effects 1 640 480 (fun _ => S_OK) S_OK [] [] false
  have hready : (HardwareRenderer.HardwareRenderer 1 640 480 (fun _ => S_OK)
      S_OK).state.m_IsInitialized = true := by decide
  obtain ⟨hc, hs⟩ := h1 hready
  have hc1 : ctx = 1 := Option.some.inj (hc.symm.trans (by decide))
  have hs1 : sc = 3 := Option.some.inj (hs.symm.trans (by decide))
  subst hc1 hs1
  refine ⟨hready, _, h2, ?_⟩
  have hrtv : ((HardwareRenderer.HardwareRenderer 1 640 480 (fun _ => S_OK) S_OK).thenCalls
      []).state.m_pRenderTargetView = some 7 := by decide
  have hdsv : ((HardwareRenderer.HardwareRenderer 1 640 480 (fun _ => S_OK) S_OK).thenCalls
      []).state.m_pDepthStencilView = some 5 := by decide
  have hready1 : ((HardwareRenderer.HardwareRenderer 1 640 480 (fun _ => S_OK) S_OK).thenCalls
      []).state.m_IsInitialized = true := hready
  rw [hrtv, hdsv] at h4
  rw [emitted_of_trace_eq rfl, hready1, hrtv, hdsv, h4]

/-- Claim C4. Filter cycle: on a pipeline manager whose device is present (every constructed
one), for every starting filter mode, all mesh collections and all outcomes of the three
sampler creations, three consecutive `ToggleRenderSampleState` calls run to completion and
leave the active filter mode equal to the starting mode. -/
theorem filter_cycle (s : State) (dev : Ptr) (h : s.m_pDevice = some dev)
    (m1 m2 m3 : List MeshPtr) (hr1 hr2 hr3 : HRESULT) :
    ∃ s3, runCalls s [.ToggleRenderSampleState m1 hr1, .ToggleRenderSampleState m2 hr2,
        .ToggleRenderSampleState m3 hr3] = .done s3 ∧ s3.m_SampleState = s.m_SampleState := by
  obtain ⟨s1, hrun1, hmem1, -, -, -⟩ := ToggleRenderSampleState_done s dev h m1 hr1
  have hd1 : s1.m_pDevice = some dev := by
    have := congrArg HardwareRenderer.m_pDevice hmem1
    simpa [h] using this
  obtain ⟨s2, hrun2, hmem2, -, -, -⟩ := ToggleRenderSampleState_done s1 dev hd1 m2 hr2
  have hd2 : s2.m_pDevice = some dev := by
    have := congrArg HardwareRenderer.m_pDevice hmem2
    simpa [hd1] using this
  obtain ⟨s3, hrun3, hmem3, -, -, -⟩ := ToggleRenderSampleState_done s2 dev hd2 m3 hr3
  refine ⟨s3, ?_, ?_⟩
  · simp [runCalls, Call.exec, hrun1, hrun2, hrun3]
  · have e1 := congrArg HardwareRenderer.m_SampleState hmem1
    have e2 := congrArg HardwareRenderer.m_SampleState hmem2
    have e3 := congrArg HardwareRenderer.m_SampleState hmem3
    simp only [] at e1 e2 e3
    rw [e3, e2, e1, succMod_succMod_succMod]

/-- Witness for C4: three toggles on the ready pipeline, which starts at Point, end at Point. -/
theorem filter_cycle_witness :
    readyPipeline.m_pDevice = some 0 ∧
    ∃ s3, runCalls readyPipeline [.ToggleRenderSampleState [0, 1] S_OK,
        .ToggleRenderSampleState [0, 1] S_OK, .ToggleRenderSampleState [0, 1] S_OK] = .done s3 ∧
      s3.m_SampleState = .Point := by
  obtain ⟨s3, h1, h2⟩ := filter_cycle readyPipeline 0 (by decide) [0, 1] [0, 1] [0, 1]
    S_OK S_OK S_OK
  exact ⟨by decide, s3, h1, h2.trans (by decide)⟩

/-- Claim C5. On a pipeline manager whose device is present, one `ToggleRenderSampleState`
call, for every current mode, mesh collection and outcome of the sampler creation, runs to
completion and: sets the active mode to `(current + 1) mod 3` in the order Point, Linear,
Anisotropic; writes to `std::cout` the colour code, the status text and the name of exactly
the new mode ("POINT", "LINEAR" or "ANISOTROPIC") followed by a line break; and requests
exactly one sampler state, whose filter is the filter kind of the new mode. -/
theorem advance_filter_step (s : State) (dev : Ptr) (h : s.m_pDevice = some dev)
    (pMeshes : List MeshPtr) (hr : HRESULT) :
    ∃ s1, HardwareRenderer.ToggleRenderSampleState s pMeshes hr = .done s1 ∧
      s1.m_SampleState.toInt = (s.m_SampleState.toInt + 1) % 3 ∧
      (s.m_SampleState = .Point → s1.m_SampleState = .Linear) ∧
      (s.m_SampleState = .Linear → s1.m_SampleState = .Anisotropic) ∧
      (s.m_SampleState = .Anisotropic → s1.m_SampleState = .Point) ∧
      (emitted s s1).filterMap Effect.coutText =
        ["\x1b[32m", "**(HARDWARE) Sampler Filter = ", s1.m_SampleState.displayName ++ "\n"] ∧
      (emitted s s1).filterMap Effect.samplerRequest = [s1.m_SampleState.filterKind] := by
  obtain ⟨s1, hrun, hmem, -, -, htrace⟩ := ToggleRenderSampleState_done s dev h pMeshes hr
  have hmode : s1.m_SampleState = s.m_SampleState.succMod := by
    have := congrArg HardwareRenderer.m_SampleState hmem
    simpa using this
  refine ⟨s1, hrun, ?_, ?_, ?_, ?_, ?_, ?_⟩
  · rw [hmode]
    cases s.m_SampleState <;> rfl
  · intro hm
    rw [hmode, hm]
    rfl
  · intro hm
    rw [hmode, hm]
    rfl
  · intro hm
    rw [hmode, hm]
    rfl
  · rw [emitted_of_trace_eq htrace, hmode]
    cases hp : s.m_pSampleState <;> cases hf : FAILED hr <;>
    simp [releaseEffects, List.filterMap_append, List.filterMap_cons,
      Effect.coutText, filterMap_coutText_map]
  · rw [emitted_of_trace_eq htrace, hmode]
    cases hp : s.m_pSampleState <;> cases hf : FAILED hr <;>
    simp [releaseEffects, List.filterMap_append, List.filterMap_cons,
      Effect.samplerRequest, filterMap_samplerRequest_map, sampleDescOf]

/-- Witness for C5: starting from Point on the ready pipeline, one call yields Linear and logs
a line naming LINEAR. -/
theorem advance_filter_step_witness :
    readyPipeline.m_pDevice = some 0 ∧ readyPipeline.m_SampleState = .Point ∧
    ∃ s1, HardwareRenderer.ToggleRenderSampleState readyPipeline [0, 1] S_OK = .done s1 ∧
      s1.m_SampleState = .Linear ∧
      (emitted readyPipeline s1).filterMap Effect.coutText =
        ["\x1b[32m", "**(HARDWARE) Sampler Filter = ", "LINEAR\n"] ∧
      (emitted readyPipeline s1).filterMap Effect.samplerRequest = [.MIN_MAG_MIP_LINEAR] := by
  obtain ⟨s1, h1, -, h3, -, -, h6, h7⟩ :=
    advance_filter_step readyPipeline 0 (by decide) [0, 1] S_OK
  have hm : s1.m_SampleState = .Linear := h3 (by decide)
  rw [hm] at h6 h7
  exact ⟨by decide, by decide, s1, h1, hm, h6, h7⟩

/-- Claim C6. Single live handle: on a pipeline whose seven creation steps and initial sampler
creation succeed, after every finite sequence of `ToggleRenderSampleState` and
`SetRasterizerState` calls whose state creations succeed (the latter with non-empty mesh
collections) the run completes, exactly one sampler state reference is live, at most one
rasterizer state reference is live, and exactly one as soon as the sequence holds a
`SetRasterizerState` call. Any further such call first releases the state its member holds
(there always is one for the sampler) and then creates the new one, and again leaves exactly
one live reference of that kind; so the count does not grow with the number of calls. -/
theorem single_live_state_handle (pWindow : Nat) (width height : Int) (o : InitStep → HRESULT)
    (hrSampler : HRESULT) (hInit : ∀ k, FAILED (o k) = false) (hS : FAILED hrSampler = false)
    (calls : List Call) (hCalls : ∀ c ∈ calls, c.createSucceeds) :
    ∃ s, (HardwareRenderer.HardwareRenderer pWindow width height o hrSampler).thenCalls calls =
        .done s ∧
      liveCount s .SamplerState = 1 ∧
      liveCount s .RasterizerState ≤ 1 ∧
      ((∃ c ∈ calls, c.isSetRasterizerState = true) → liveCount s .RasterizerState = 1) ∧
      (heldState s .SamplerState).isSome ∧
      (∀ c : Call, c.createSucceeds → ∃ s1 new, c.exec s = .done s1 ∧
        heldState s1 c.kind = some new ∧
        (emitted s s1).filterMap Effect.lifecycle =
          releasedBefore c.kind (heldState s c.kind) ++ [.created c.kind (some new)] ∧
        liveCount s1 c.kind = 1) := by
  obtain ⟨s0, hctor, hm0, hr0⟩ := constructor_managed pWindow width height o hrSampler hInit hS
  obtain ⟨s, hrun, hm, hrast⟩ := runCalls_managed calls s0 hm0 hCalls
  refine ⟨s, ?_, hm.2.2.1, ?_, ?_, ?_, ?_⟩
  · rw [hctor]
    exact hrun
  · rcases hm.2.2.2 with ⟨-, h⟩ | ⟨r, -, -, h⟩ <;> omega
  · intro hex
    have hne := hrast (Or.inr hex)
    rcases hm.2.2.2 with ⟨h, -⟩ | ⟨r, -, -, h⟩
    · exact absurd h hne
    · exact h
  · obtain ⟨p, hp, -⟩ := hm.2.1
    simp [heldState, hp]
  · intro c hc
    obtain ⟨s1, new, hexec, hm1, hheld, hlife, hr1⟩ := Call_exec_managed s hm c hc
    refine ⟨s1, new, hexec, hheld, hlife, ?_⟩
    cases c with
    | ToggleRenderSampleState pMeshes hr => exact hm1.2.2.1
    | SetRasterizerState cullMode pMeshes hr =>
      have hne := hr1 (Or.inl rfl)
      rcases hm1.2.2.2 with ⟨h, -⟩ | ⟨r, -, -, h⟩
      · exact absurd h hne
      · exact h

/-- Witness for C6: `SetCullMode(Back)` followed by `SetCullMode(Back)` on the ready pipeline
leaves one live rasterizer state and one live sampler state. -/
theorem single_live_state_handle_witness :
    ∃ s, (HardwareRenderer.HardwareRenderer 1 640 480 (fun _ => S_OK) S_OK).thenCalls
        [.SetRasterizerState .Back [0] S_OK, .SetRasterizerState .Back [0] S_OK] = .done s ∧
      liveCount s .SamplerState = 1 ∧ liveCount s .RasterizerState = 1 := by
  obtain ⟨s, h1, h2, -, h4, -⟩ := single_live_state_handle 1 640 480 (fun _ => S_OK) S_OK
    (fun _ => rfl) rfl
    [.SetRasterizerState .Back [0] S_OK, .SetRasterizerState .Back [0] S_OK]
    (by
      intro c hc
      simp only [List.mem_cons, List.mem_singleton, List.not_mem_nil, or_false, or_self] at hc
      subst hc
      exact ⟨by simp, by decide⟩)
  exact ⟨s, h1, h2, h4 ⟨_, List.mem_cons_self _ _, rfl⟩⟩

/-- Claim C7 (the code departs from it). The claim says the destructor releases everything the
manager acquired, the active rasterizer state included. Evaluated on the ready pipeline after
one `SetRasterizerState(Back)` call: the rasterizer state created by that call is live before
the destructor runs, the destructor never releases it, and it is the one reference still live
afterwards. -/
theorem destructor_leaves_rasterizer_state_live :
    ∃ s, runCalls readyPipeline [.SetRasterizerState .Back [0] S_OK] = .done s ∧
      s.m_pRasterizerState = some 9 ∧
      (Kind.RasterizerState, 9) ∈ s.live ∧
      (HardwareRenderer.destructor s).live = [(Kind.RasterizerState, 9)] ∧
      Effect.Release .RasterizerState 9 ∉ (HardwareRenderer.destructor s).trace :=
  ⟨(runCalls readyPipeline [.SetRasterizerState .Back [0] S_OK]).state, by decide, by decide,
    by decide, by decide, by decide⟩

/-- Claim C8. Teardown order, for every combination of present pointers: in the effects of the
destructor every release of a render-target view comes before every release of a render-target
buffer, every release of a depth-stencil view before every release of a depth-stencil buffer,
`ClearState` and `Flush` come before the release of the context and all three are issued when
the context is present, every effect other than the release of the device comes before that
release, which is the last effect when the device is present, and each view, buffer, swap
chain and sampler state that is present is released. -/
theorem teardown_order (s : State) :
    let t := emitted s (HardwareRenderer.destructor s)
    (∀ v b, precedes t (.Release .RenderTargetView v) (.Release .RenderTargetBuffer b)) ∧
    (∀ v b, precedes t (.Release .DepthStencilView v) (.Release .DepthStencilBuffer b)) ∧
    (∀ c c1, precedes t (.ClearState c) (.Release .DeviceContext c1) ∧
      precedes t (.Flush c) (.Release .DeviceContext c1)) ∧
    (∀ c, s.m_pDeviceContext = some c →
      .ClearState c ∈ t ∧ .Flush c ∈ t ∧ .Release .DeviceContext c ∈ t) ∧
    (∀ d e, e ∈ t → e ≠ .Release .Device d → precedes t e (.Release .Device d)) ∧
    (∀ d, s.m_pDevice = some d → t.getLast? = some (.Release .Device d)) ∧
    (∀ p, s.m_pRenderTargetView = some p → .Release .RenderTargetView p ∈ t) ∧
    (∀ p, s.m_pRenderTargetBuffer = some p → .Release .RenderTargetBuffer p ∈ t) ∧
    (∀ p, s.m_pDepthStencilView = some p → .Release .DepthStencilView p ∈ t) ∧
    (∀ p, s.m_pDepthStencilBuffer = some p → .Release .DepthStencilBuffer p ∈ t) ∧
    (∀ p, s.m_pSwapChain = some p → .Release .SwapChain p ∈ t) ∧
    (∀ p, s.m_pSampleState = some p → .Release .SamplerState p ∈ t) := by
  intro t
  have hp : t.Pairwise (fun a b => teardownRank a < teardownRank b) := destructor_ranks s
  have ht : t = _ := destructor_emitted s
  refine ⟨?_, ?_, ?_, ?_, ?_, ?_, ?_, ?_, ?_, ?_, ?_, ?_⟩
  · intro v b
    exact precedes_of_rank hp (by simp [teardownRank])
  · intro v b
    exact precedes_of_rank hp (by simp [teardownRank])
  · intro c c1
    exact ⟨precedes_of_rank hp (by simp [teardownRank]),
      precedes_of_rank hp (by simp [teardownRank])⟩
  · intro c hc
    rw [ht]
    simp [hc, contextTeardownEffects]
  · intro d e he hne
    exact precedes_of_rank_le hp (destructor_rank_le s e he) hne
  · intro d hd
    rw [ht]
    simp [hd, releaseEffects, List.getLast?_append]
  all_goals
    intro p hpr
    rw [ht]
    simp [hpr, releaseEffects]

/-- Witness for C8: in the teardown of the ready pipeline the render-target view 7 is released
before the render-target buffer 6, and the release of device 0 is the last effect. -/
theorem teardown_order_witness :
    readyPipeline.m_pDevice = some 0 ∧
    Effect.Release .RenderTargetView 7 ∈ emitted readyPipeline
      (HardwareRenderer.destructor readyPipeline) ∧
    precedes (emitted readyPipeline (HardwareRenderer.destructor readyPipeline))
      (.Release .RenderTargetView 7) (.Release .RenderTargetBuffer 6) ∧
    (emitted readyPipeline (HardwareRenderer.destructor readyPipeline)).getLast? =
      some (.Release .Device 0) := by
  obtain ⟨h1, -, -, -, -, h6, h7, -⟩ := teardown_order readyPipeline
  exact ⟨by decide, h7 7 (by decide), h1 7 6, h6 0 (by decide)⟩

/-- Claim C9. On a pipeline manager whose device is present, for every cull mode, every
non-empty mesh collection and every outcome of the creation, `SetRasterizerState` runs to
completion, requests exactly one rasterizer state, whose cull mode is the one of the argument,
and makes exactly one call on a mesh: it hands the pointer the creation wrote to the first
mesh of the collection. That mesh then holds it, and every other mesh, in particular the mesh
at every index 1 or above that is not the first mesh again, holds what it held before. -/
theorem set_cull_mode_first_mesh_only (s : State) (dev : Ptr) (h : s.m_pDevice = some dev)
    (cullMode : CullMode) (pMeshes : List MeshPtr) (hne : pMeshes ≠ []) (hr : HRESULT) :
    ∃ s1, HardwareRenderer.SetRasterizerState s cullMode pMeshes hr = .done s1 ∧
      (emitted s s1).filterMap Effect.rasterizerCreate =
        [(cullMode.toD3D, s1.m_pRasterizerState)] ∧
      (emitted s s1).filter Effect.isMeshCall =
        [Effect.Mesh_SetRasterizerState (pMeshes.head hne) s1.m_pRasterizerState] ∧
      meshRasterizerState s1.trace (pMeshes.head hne) = s1.m_pRasterizerState ∧
      (∀ m, m ≠ pMeshes.head hne →
        meshRasterizerState s1.trace m = meshRasterizerState s.trace m) ∧
      (∀ i (hi : i < pMeshes.length), 1 ≤ i → pMeshes[i] ≠ pMeshes.head hne →
        meshRasterizerState s1.trace pMeshes[i] = meshRasterizerState s.trace pMeshes[i]) := by
  obtain ⟨pMesh, rest, rfl⟩ := List.exists_cons_of_ne_nil hne
  rw [SetRasterizerState_cons s dev h]
  have hother : ∀ m, m ≠ pMesh →
      meshRasterizerState (emit (afterRasterizerCreate s dev cullMode hr)
        (.Mesh_SetRasterizerState pMesh (created hr s.nextObject))).trace m =
      meshRasterizerState s.trace m := by
    intro m hm
    have hm1 : ¬ pMesh = m := fun e => hm e.symm
    cases hp : s.m_pRasterizerState <;> cases hf : FAILED hr <;>
    simp [emit, afterRasterizerCreate, releaseEffects, hp, hf, meshRasterizerState_append, hm1,
      List.foldl_append, meshRasterizerStep]
  refine ⟨_, rfl, ?_, ?_, ?_, hother, ?_⟩
  · cases hp : s.m_pRasterizerState <;> cases hf : FAILED hr <;>
    simp [emitted, emit, afterRasterizerCreate, releaseEffects, hp, hf, List.filterMap_append,
      List.filterMap_cons, Effect.rasterizerCreate, rasterizerDescOf]
  · cases hp : s.m_pRasterizerState <;> cases hf : FAILED hr <;>
    simp [emitted, emit, afterRasterizerCreate, releaseEffects, hp, hf, List.filter_append,
      List.filter_cons, Effect.isMeshCall]
  · cases hp : s.m_pRasterizerState <;> cases hf : FAILED hr <;>
    simp [emit, afterRasterizerCreate, releaseEffects, hp, hf, meshRasterizerState_append,
      List.foldl_append, meshRasterizerStep]
  · intro i hi _ hm
    exact hother _ hm

/-- Witness for C9: `SetRasterizerState(Front)` on the ready pipeline with meshes 3 and 4 gives
the new state 9 to mesh 3 and leaves mesh 4 without a rasterizer state. -/
theorem set_cull_mode_first_mesh_only_witness :
    readyPipeline.m_pDevice = some 0 ∧ ([3, 4] : List MeshPtr) ≠ [] ∧
    ∃ s1, HardwareRenderer.SetRasterizerState readyPipeline .Front [3, 4] S_OK = .done s1 ∧
      (emitted readyPipeline s1).filterMap Effect.rasterizerCreate =
        [(.D3D11_CULL_FRONT, s1.m_pRasterizerState)] ∧
      meshRasterizerState s1.trace 3 = s1.m_pRasterizerState ∧
      meshRasterizerState s1.trace 4 = none := by
  obtain ⟨s1, h1, h2, -, h4, h5, -⟩ :=
    set_cull_mode_first_mesh_only readyPipeline 0 (by decide) .Front [3, 4] (by decide) S_OK
  exact ⟨by decide, by decide, s1, h1, h2, h4, (h5 4 (by decide)).trans (by decide)⟩

/-- Claim C10. `SetRasterizerState` is not total over mesh collections: on a pipeline manager
whose device is present, for the empty collection, every cull mode and every outcome of the
creation, the call ends in the out-of-range fault of `pMeshes[0]`, and only after it has
released the previous rasterizer state (if any) and issued the creation of a new one: those
are the effects issued, the outstanding references and the member are updated accordingly,
and the state reached differs from the state before the call. -/
theorem set_cull_mode_empty_collection (s : State) (dev : Ptr) (h : s.m_pDevice = some dev)
    (cullMode : CullMode) (hr : HRESULT) :
    ∃ s1, HardwareRenderer.SetRasterizerState s cullMode [] hr = .fault .indexOutOfRange s1 ∧
      emitted s s1 = releaseEffects .RasterizerState s.m_pRasterizerState ++
        [Effect.CreateRasterizerState dev (rasterizerDescOf cullMode) hr s1.m_pRasterizerState] ++
        (if FAILED hr then [Effect.wcout "m_pRasterizerState failed to load\n"] else []) ∧
      s1.m_pRasterizerState = (if FAILED hr then none else some s.nextObject) ∧
      s1.live = (if FAILED hr then liveAfterRelease s.live .RasterizerState s.m_pRasterizerState
        else (Kind.RasterizerState, s.nextObject) ::
          liveAfterRelease s.live .RasterizerState s.m_pRasterizerState) ∧
      s1 ≠ s := by
  rw [SetRasterizerState_nil s dev h]
  refine ⟨_, rfl, ?_, rfl, rfl, ?_⟩
  · simp [emitted, afterRasterizerCreate]
  · intro e
    have := congrArg (fun st => st.trace.length) e
    cases hp : s.m_pRasterizerState <;> cases hf : FAILED hr <;>
    simp [afterRasterizerCreate, releaseEffects, hp, hf] at this

/-- Witness for C10: on the ready pipeline `SetRasterizerState(Back)` with no mesh faults after
creating rasterizer state 9, which stays live. -/
theorem set_cull_mode_empty_collection_witness :
    readyPipeline.m_pDevice = some 0 ∧
    ∃ s1, HardwareRenderer.SetRasterizerState readyPipeline .Back [] S_OK =
        .fault .indexOutOfRange s1 ∧
      s1.m_pRasterizerState = some 9 ∧ (Kind.RasterizerState, 9) ∈ s1.live ∧
      s1 ≠ readyPipeline := by
  obtain ⟨s1, h1, -, h3, h4, h5⟩ :=
    set_cull_mode_empty_collection readyPipeline 0 (by decide) .Back S_OK
  refine ⟨by decide, s1, h1, h3.trans (by decide), ?_, h5⟩
  rw [h4]
  decide

end dae
